import Mathlib

/-!
# Loyalty-voucher redemption backend: embedding of the handlers

Shallow embedding of `handlers/transaction_handler.go` (`CreateRedemption`) and of the
creating and updating handlers of `brand_handler.go`, `voucher_handler.go` and
`customer_handler.go`, over the tables declared in `models/models.go`.

Conventions of the embedding.

* Go `int` is a 64-bit two's complement integer; values are kept as `Int` and
  every arithmetic result goes through `wrap64`.
* `uuid.UUID` is an abstract identity, `uuid.Nil` is `0`.
* `time.Time` is an instant counted from Go's zero time, so that
  `t.IsZero()` is `t = 0`, `a.Before(b)` is `a < b` and `a.After(b)` is `a > b`.
* A table is the list of its rows in insertion order.  Only the columns are
  kept; the `CreatedAt`/`UpdatedAt` timestamps, which no handler reads, and the
  association fields (`Brand`, `Customer`, `Items`, ...) which are not columns,
  are left out.
* What the handler obtains from outside the repository is an input of the
  model, collected in `Env`: the verdict of `c.ShouldBindJSON`, `uuid.Parse`,
  the successive readings of `time.Now()`, the successive results of
  `uuid.New()`, and which writes the storage layer refuses.
-/

namespace Loyalty

/-! ## Machine integers, identities, instants -/

/-- Reduction of an integer to the range of a Go `int` (64-bit two's complement). -/
def wrap64 (x : Int) : Int := (x + 9223372036854775808) % 18446744073709551616 - 9223372036854775808

/-- Membership in the range of a Go `int`. -/
def inInt64 (x : Int) : Prop := -9223372036854775808 ≤ x ∧ x < 9223372036854775808

instance (x : Int) : Decidable (inInt64 x) := by unfold inInt64; infer_instance

abbrev UUID := Nat

/-- Go's `uuid.Nil`. -/
def uuidNil : UUID := 0

abbrev Time := Int

/-- Go's `time.Time.IsZero`. -/
def Time.IsZero (t : Time) : Bool := t == 0

/-- Go's `time.Time.Before`. -/
def Time.Before (a b : Time) : Bool := decide (a < b)

/-- Go's `time.Time.After`. -/
def Time.After (a b : Time) : Bool := decide (a > b)

/-! ## Tables (`models/models.go`) -/

structure Brand where
  ID : UUID
  Name : String
  Description : String
  LogoURL : String
  IsActive : Bool
deriving DecidableEq, Repr

structure Voucher where
  ID : UUID
  BrandID : UUID
  Name : String
  Description : String
  CostInPoint : Int
  ValidFrom : Time
  ValidTo : Time
  IsActive : Bool
deriving DecidableEq, Repr

structure Customer where
  ID : UUID
  Name : String
  Email : String
  Phone : String
  Points : Int
  IsActive : Bool
deriving DecidableEq, Repr

structure Transaction where
  ID : UUID
  CustomerID : UUID
  TotalPoints : Int
  Status : String
deriving DecidableEq, Repr

structure TransactionItem where
  ID : UUID
  TransactionID : UUID
  VoucherID : UUID
  Quantity : Int
  PointsPerUnit : Int
  TotalPoints : Int
deriving DecidableEq, Repr

/-- The database: one list of rows per migrated model. -/
structure Store where
  brands : List Brand
  vouchers : List Voucher
  customers : List Customer
  transactions : List Transaction
  items : List TransactionItem
deriving DecidableEq, Repr

/-! ## Requests and responses (`handlers/transaction_handler.go`) -/

structure RedemptionItem where
  VoucherID : String
  Quantity : Int
deriving DecidableEq, Repr

structure RedemptionRequest where
  CustomerID : String
  Items : List RedemptionItem
deriving DecidableEq, Repr

/-- What the handler writes with `c.JSON`: either `{"error": ...}` with its
status code, or the success body with its status code and message (the `data`
payload, re-read from the database for presentation, is not part of the model). -/
inductive Response where
  | error (status : Nat) (error : String)
  | success (status : Nat) (message : String)
deriving DecidableEq, Repr

/-- Which writes the storage layer refuses during the unit of work (a failed `Begin`
shows as the refusal of the first write, which is issued on the failed handle). -/
structure Faults where
  createTransaction : Bool
  createItem : Nat → Bool
  updatePoints : Bool
  commit : Bool

/-- Everything `CreateRedemption` obtains from outside the repository. -/
structure Env where
  /-- verdict of `c.ShouldBindJSON(&req)`: the error text when binding is refused -/
  bindError : RedemptionRequest → Option String
  /-- result of `uuid.Parse` -/
  parseUUID : String → Option UUID
  /-- value of `time.Now()` read while item `i` of the request is processed -/
  now : Nat → Time
  /-- value of the `k`-th call of `uuid.New()` made by the `BeforeCreate` hooks -/
  newUUID : Nat → UUID
  faults : Faults

/-! ## Queries and writes issued by the handler -/

/-- The query `First(&customer, "id = ?", customerID)`. -/
def findCustomer (s : Store) (customerID : UUID) : Option Customer :=
  s.customers.find? (fun c => c.ID == customerID)

/-- The query `First(&voucher, "id = ? AND is_active = ?", voucherID, true)`. -/
def findActiveVoucher (s : Store) (voucherID : UUID) : Option Voucher :=
  s.vouchers.find? (fun v => v.ID == voucherID && v.IsActive == true)

/-- Hook `BeforeCreate` shared by the models: a nil id is replaced by a new one. -/
def beforeCreate (id fresh : UUID) : UUID :=
  if id == uuidNil then fresh else id

/-- Write `tx.Create(&transaction)`: refused by the storage layer, or by the
primary key when the id is already present. -/
def txCreateTransaction (f : Faults) (tx : Store) (t : Transaction) : Option Store :=
  if f.createTransaction || tx.transactions.any (fun r => r.ID == t.ID) then none
  else some { tx with transactions := tx.transactions ++ [t] }

/-- Write `tx.Create(&transactionItems[i])`. -/
def txCreateItem (f : Faults) (i : Nat) (tx : Store) (it : TransactionItem) : Option Store :=
  if f.createItem i || tx.items.any (fun r => r.ID == it.ID) then none
  else some { tx with items := tx.items ++ [it] }

/-- Write `tx.Model(&customer).Update("points", v)`: `UPDATE customers SET points = v WHERE id = customer.ID`. -/
def txUpdatePoints (f : Faults) (tx : Store) (customerID : UUID) (v : Int) : Option Store :=
  if f.updatePoints then none
  else some { tx with customers := tx.customers.map (fun c => if c.ID == customerID then { c with Points := v } else c) }

/-! ## `CreateRedemption` -/

/-- Lines 67-76: the validity-period check of one voucher against `now`;
`some msg` is the error text written, `none` means the voucher passes. -/
def checkValidity (voucher : Voucher) (now : Time) : Option String :=
  if !voucher.ValidFrom.IsZero && now.Before voucher.ValidFrom then
    some "Voucher is not yet valid"
  else if !voucher.ValidTo.IsZero && now.After voucher.ValidTo then
    some "Voucher has expired"
  else none

/-- Lines 53-76: what the loop body does with one request item before it
computes points: parse the id, fetch the active voucher, check its validity
period at the instant read in this iteration. -/
def validateItem (env : Env) (s : Store) (idx : Nat) (item : RedemptionItem) :
    Except Response (UUID × Voucher) :=
  match env.parseUUID item.VoucherID with
  | none => .error (.error 400 "Invalid voucher ID")
  | some voucherID =>
    match findActiveVoucher s voucherID with
    | none => .error (.error 400 "Voucher not found or inactive")
    | some voucher =>
      match checkValidity voucher (env.now idx) with
      | some msg => .error (.error 400 msg)
      | none => .ok (voucherID, voucher)

/-- Lines 52-90: the loop over `req.Items`, started at iteration `idx` with the
running `totalPoints` and the `transactionItems` appended so far. -/
def processItems (env : Env) (s : Store) :
    Nat → Int → List TransactionItem → List RedemptionItem →
    Except Response (Int × List TransactionItem)
  | _, totalPoints, transactionItems, [] => .ok (totalPoints, transactionItems)
  | idx, totalPoints, transactionItems, item :: rest =>
    match validateItem env s idx item with
    | .error r => .error r
    | .ok (voucherID, voucher) =>
      let itemTotalPoints := wrap64 (voucher.CostInPoint * item.Quantity)
      let transactionItem : TransactionItem :=
        { ID := uuidNil, TransactionID := uuidNil, VoucherID := voucherID,
          Quantity := item.Quantity, PointsPerUnit := voucher.CostInPoint,
          TotalPoints := itemTotalPoints }
      processItems env s (idx + 1) (wrap64 (totalPoints + itemTotalPoints))
        (transactionItems ++ [transactionItem]) rest

/-- What the handler holds when every check has passed (line 97). -/
structure Plan where
  customerID : UUID
  customer : Customer
  totalPoints : Int
  transactionItems : List TransactionItem

/-- Lines 28-96: binding, customer lookup, the item loop and the balance
check.  Nothing is written. -/
def prepare (env : Env) (s : Store) (req : RedemptionRequest) : Except Response Plan :=
  match env.bindError req with
  | some msg => .error (.error 400 msg)
  | none =>
    match env.parseUUID req.CustomerID with
    | none => .error (.error 400 "Invalid customer ID")
    | some customerID =>
      match findCustomer s customerID with
      | none => .error (.error 400 "Customer not found")
      | some customer =>
        match processItems env s 0 0 [] req.Items with
        | .error r => .error r
        | .ok (totalPoints, transactionItems) =>
          if customer.Points < totalPoints then .error (.error 400 "Insufficient points")
          else .ok { customerID := customerID, customer := customer,
                     totalPoints := totalPoints, transactionItems := transactionItems }

/-- Lines 114-122: the loop creating the items inside the unit of work; item
`i` receives the transaction id and, from its hook, the `(i+1)`-th new id. -/
def createItems (env : Env) (transactionID : UUID) :
    Nat → Store → List TransactionItem → Option Store
  | _, tx, [] => some tx
  | i, tx, it :: rest =>
    let it1 := { it with TransactionID := transactionID }
    let it2 := { it1 with ID := beforeCreate it1.ID (env.newUUID (i + 1)) }
    match txCreateItem env.faults i tx it2 with
    | none => none
    | some tx1 => createItems env transactionID (i + 1) tx1 rest

/-- Lines 98-145: the unit of work.  `tx` starts as a private copy of the
store (`Begin`); `Rollback` and a failed `Commit` leave the store as it was,
a successful `Commit` installs `tx`. -/
def commit (env : Env) (s : Store) (p : Plan) : Response × Store :=
  let transaction : Transaction :=
    { ID := beforeCreate uuidNil (env.newUUID 0), CustomerID := p.customerID,
      TotalPoints := p.totalPoints, Status := "completed" }
  match txCreateTransaction env.faults s transaction with
  | none => (.error 500 "Failed to create transaction", s)
  | some tx1 =>
    match createItems env transaction.ID 0 tx1 p.transactionItems with
    | none => (.error 500 "Failed to create transaction items", s)
    | some tx2 =>
      match txUpdatePoints env.faults tx2 p.customer.ID (wrap64 (p.customer.Points - p.totalPoints)) with
      | none => (.error 500 "Failed to update customer points", s)
      | some tx3 =>
        if env.faults.commit then (.error 500 "Failed to commit transaction", s)
        else (.success 201 "Redemption successful", tx3)

/-- The handler `CreateRedemption`: response written and store left behind. -/
def CreateRedemption (env : Env) (s : Store) (req : RedemptionRequest) : Response × Store :=
  match prepare env s req with
  | .error r => (r, s)
  | .ok p => commit env s p

/-! ## Observations used in the statements -/

/-- Sum of the `TotalPoints` column over a list of item rows, as an exact integer. -/
def sumTotals (l : List TransactionItem) : Int := (l.map (fun it => it.TotalPoints)).sum

/-- The row the item loop builds for a request item resolved to `voucher`. -/
def itemRow (voucherID : UUID) (voucher : Voucher) (item : RedemptionItem) : TransactionItem :=
  { ID := uuidNil, TransactionID := uuidNil, VoucherID := voucherID,
    Quantity := item.Quantity, PointsPerUnit := voucher.CostInPoint,
    TotalPoints := wrap64 (voucher.CostInPoint * item.Quantity) }

/-- The rows written by `createItems` for the in-memory items, first new id `newUUID (i+1)`. -/
def stampItems (env : Env) (transactionID : UUID) : Nat → List TransactionItem → List TransactionItem
  | _, [] => []
  | i, it :: rest =>
    { it with TransactionID := transactionID, ID := beforeCreate it.ID (env.newUUID (i + 1)) }
      :: stampItems env transactionID (i + 1) rest

/-- The transaction row written by `commit`. -/
def transactionRow (env : Env) (p : Plan) : Transaction :=
  { ID := beforeCreate uuidNil (env.newUUID 0), CustomerID := p.customerID,
    TotalPoints := p.totalPoints, Status := "completed" }

/-- The customers table after `UPDATE customers SET points = v WHERE id = customerID`. -/
def setPoints (customers : List Customer) (customerID : UUID) (v : Int) : List Customer :=
  customers.map (fun c => if c.ID == customerID then { c with Points := v } else c)

/-- The storage layer accepts every write of a unit of work creating `n`
items: no write is refused and no generated id collides with a primary key. -/
def StorageAccepts (env : Env) (s : Store) (n : Nat) : Prop :=
  env.faults.createTransaction = false ∧ (∀ i < n, env.faults.createItem i = false) ∧
  env.faults.updatePoints = false ∧ env.faults.commit = false ∧
  (∀ t ∈ s.transactions, t.ID ≠ env.newUUID 0) ∧
  (∀ i < n, ∀ it ∈ s.items, it.ID ≠ env.newUUID (i + 1)) ∧
  (∀ j < n, ∀ i < j, env.newUUID (i + 1) ≠ env.newUUID (j + 1))

instance (env : Env) (s : Store) (n : Nat) : Decidable (StorageAccepts env s n) := by
  unfold StorageAccepts; infer_instance

/-- Some write of a unit of work creating `n` items is refused by the storage layer. -/
def SomeWriteFails (env : Env) (n : Nat) : Prop :=
  env.faults.createTransaction = true ∨ (∃ i < n, env.faults.createItem i = true) ∨
  env.faults.updatePoints = true ∨ env.faults.commit = true

instance (env : Env) (n : Nat) : Decidable (SomeWriteFails env n) := by
  unfold SomeWriteFails; infer_instance

/-- The store a successful unit of work leaves behind. -/
def committed (env : Env) (s : Store) (p : Plan) : Store :=
  { brands := s.brands, vouchers := s.vouchers,
    customers := setPoints s.customers p.customer.ID (wrap64 (p.customer.Points - p.totalPoints)),
    transactions := s.transactions ++ [transactionRow env p],
    items := s.items ++ stampItems env (transactionRow env p).ID 0 p.transactionItems }

/-! ## Brand, voucher and customer handlers -/

/-- Go's `len` of a string: its number of bytes (UTF-8). -/
def goLen (s : String) : Nat := s.utf8ByteSize

/-- Request body of `CreateBrand` (`handlers/brand_handler.go`). -/
structure CreateBrandRequest where
  Name : String
  Description : String
  LogoURL : String
  IsActive : Bool
deriving DecidableEq, Repr

/-- Request body of `CreateVoucher` (`handlers/voucher_handler.go`). -/
structure CreateVoucherRequest where
  BrandID : String
  Name : String
  Description : String
  CostInPoint : Int
  ValidFrom : Time
  ValidTo : Time
deriving DecidableEq, Repr

/-- Request body of `CreateCustomer` (`handlers/customer_handler.go`). -/
structure CreateCustomerRequest where
  Name : String
  Email : String
  Phone : String
  Points : Int
deriving DecidableEq, Repr

/-- What a creating handler obtains from outside the repository: the verdict of
`c.ShouldBindJSON`, `uuid.Parse`, the id `uuid.New()` returns in the `BeforeCreate` hook,
and whether the storage layer refuses the insert. -/
structure CreateEnv (Req : Type) where
  bindError : Req → Option String
  parseUUID : String → Option UUID
  newUUID : UUID
  createFails : Bool

/-- What `UpdateCustomerPoints` obtains from outside the repository; the request body is
the one field `Points`. -/
structure UpdateEnv where
  parseUUID : String → Option UUID
  bindError : Int → Option String
  updateFails : Bool

/-- Lines 30-34 of `brand_handler.go`: the name-length check. -/
def brandNameRejected (name : String) : Bool :=
  decide (goLen name < 2) || decide (goLen name > 255)

/-- The handler `CreateBrand`. -/
def CreateBrand (env : CreateEnv CreateBrandRequest) (s : Store) (req : CreateBrandRequest) :
    Response × Store :=
  match env.bindError req with
  | some msg => (.error 400 msg, s)
  | none =>
    if brandNameRejected req.Name then
      (.error 400 "Brand name must be between 2 and 255 characters", s)
    else
      let brand : Brand :=
        { ID := beforeCreate uuidNil env.newUUID, Name := req.Name,
          Description := req.Description, LogoURL := req.LogoURL, IsActive := req.IsActive }
      if env.createFails || s.brands.any (fun r => r.ID == brand.ID) then
        (.error 500 "Failed to create brand", s)
      else (.success 201 "Brand created successfully", { s with brands := s.brands ++ [brand] })

/-- Lines 54-57 of `voucher_handler.go`: the date-range check. -/
def dateRangeRejected (validFrom validTo : Time) : Bool :=
  !validFrom.IsZero && !validTo.IsZero && validFrom.After validTo

/-- The handler `CreateVoucher`. -/
def CreateVoucher (env : CreateEnv CreateVoucherRequest) (s : Store) (req : CreateVoucherRequest) :
    Response × Store :=
  match env.bindError req with
  | some msg => (.error 400 msg, s)
  | none =>
    match env.parseUUID req.BrandID with
    | none => (.error 400 "Invalid brand ID", s)
    | some brandID =>
      match s.brands.find? (fun b => b.ID == brandID) with
      | none => (.error 400 "Brand not found", s)
      | some _ =>
        if req.CostInPoint ≤ 0 then (.error 400 "Cost in point must be greater than 0", s)
        else if dateRangeRejected req.ValidFrom req.ValidTo then
          (.error 400 "Valid from date must be before valid to date", s)
        else
          let voucher : Voucher :=
            { ID := beforeCreate uuidNil env.newUUID, BrandID := brandID, Name := req.Name,
              Description := req.Description, CostInPoint := req.CostInPoint,
              ValidFrom := req.ValidFrom, ValidTo := req.ValidTo, IsActive := true }
          if env.createFails || s.vouchers.any (fun r => r.ID == voucher.ID) then
            (.error 500 "Failed to create voucher", s)
          else
            (.success 201 "Voucher created successfully",
              { s with vouchers := s.vouchers ++ [voucher] })

/-- The handler `CreateCustomer`. -/
def CreateCustomer (env : CreateEnv CreateCustomerRequest) (s : Store)
    (req : CreateCustomerRequest) : Response × Store :=
  match env.bindError req with
  | some msg => (.error 400 msg, s)
  | none =>
    if decide (goLen req.Name < 2) || decide (goLen req.Name > 255) then
      (.error 400 "Customer name must be between 2 and 255 characters", s)
    else
      match s.customers.find? (fun c => c.Email == req.Email) with
      | some _ => (.error 400 "Email already exists", s)
      | none =>
        let points := if req.Points < 0 then 0 else req.Points
        let customer : Customer :=
          { ID := beforeCreate uuidNil env.newUUID, Name := req.Name, Email := req.Email,
            Phone := req.Phone, Points := points, IsActive := true }
        if env.createFails || s.customers.any (fun r => r.ID == customer.ID) then
          (.error 500 "Failed to create customer", s)
        else
          (.success 201 "Customer created successfully",
            { s with customers := s.customers ++ [customer] })

/-- The handler `UpdateCustomerPoints`, for the path parameter `id` and the bound body
field `points`. -/
def UpdateCustomerPoints (env : UpdateEnv) (s : Store) (id : String) (points : Int) :
    Response × Store :=
  match env.parseUUID id with
  | none => (.error 400 "Invalid customer ID", s)
  | some customerID =>
    match env.bindError points with
    | some msg => (.error 400 msg, s)
    | none =>
      if points < 0 then (.error 400 "Points cannot be negative", s)
      else
        match findCustomer s customerID with
        | none => (.error 404 "Customer not found", s)
        | some customer =>
          if env.updateFails then (.error 500 "Failed to update customer points", s)
          else
            (.success 200 "Customer points updated successfully",
              { s with customers := setPoints s.customers customer.ID points })

/-! ## Sequences of requests and interleavings -/

/-- The database before any request. -/
def emptyStore : Store :=
  { brands := [], vouchers := [], customers := [], transactions := [], items := [] }

/-- One request served by the API, with what its handler obtains from outside. -/
inductive Op where
  | createBrand (env : CreateEnv CreateBrandRequest) (req : CreateBrandRequest)
  | createVoucher (env : CreateEnv CreateVoucherRequest) (req : CreateVoucherRequest)
  | createCustomer (env : CreateEnv CreateCustomerRequest) (req : CreateCustomerRequest)
  | updateCustomerPoints (env : UpdateEnv) (id : String) (points : Int)
  | createRedemption (env : Env) (req : RedemptionRequest)

/-- The store a request leaves behind. -/
def Op.apply : Op → Store → Store
  | .createBrand env req, s => (CreateBrand env s req).2
  | .createVoucher env req, s => (CreateVoucher env s req).2
  | .createCustomer env req, s => (CreateCustomer env s req).2
  | .updateCustomerPoints env id points, s => (UpdateCustomerPoints env s id points).2
  | .createRedemption env req, s => (CreateRedemption env s req).2

/-- The store a sequence of requests, served one after the other, leaves behind. -/
def runOps (ops : List Op) (s : Store) : Store := ops.foldl (fun st op => op.apply st) s

/-- Two executions of `CreateRedemption` scheduled so that both do their reads and
checks (lines 28-96) on the same store before either runs its unit of work (lines 98-135);
the units of work then run one after the other, each from the `customer` it read. -/
def readsThenWrites (env1 env2 : Env) (s : Store) (req1 req2 : RedemptionRequest) :
    (Response × Response) × Store :=
  match prepare env1 s req1, prepare env2 s req2 with
  | .ok p1, .ok p2 =>
    let r1 := commit env1 s p1
    let r2 := commit env2 r1.2 p2
    ((r1.1, r2.1), r2.2)
  | .ok p1, .error e2 => let r1 := commit env1 s p1; ((r1.1, e2), r1.2)
  | .error e1, .ok p2 => let r2 := commit env2 s p2; ((e1, r2.1), r2.2)
  | .error e1, .error e2 => ((e1, e2), s)

/-- Exact integer total of a request: the sum, over the items that resolve to a voucher,
of cost × quantity, with no reduction to the machine range. -/
def exactTotal (env : Env) (s : Store) : Nat → List RedemptionItem → Int
  | _, [] => 0
  | idx, item :: rest =>
    (match validateItem env s idx item with
      | .ok (_, voucher) => voucher.CostInPoint * item.Quantity
      | .error _ => 0) + exactTotal env s (idx + 1) rest

/-! ## Concrete scenarios -/

/-- A storage layer that refuses nothing. -/
def noFaults : Faults :=
  { createTransaction := false, createItem := fun _ => false, updatePoints := false, commit := false }

/-- Identifier parsing used in the scenarios: five well-formed identifiers. -/
def parseIds (s : String) : Option UUID :=
  if s = "cust-1" then some 1
  else if s = "vouch-2" then some 2
  else if s = "vouch-3" then some 3
  else if s = "vouch-4" then some 4
  else if s = "brand-9" then some 9
  else none

/-- Scenario environment: every request binds, the clock reads 1000, new ids are 100, 101, ... -/
def envA : Env :=
  { bindError := fun _ => none, parseUUID := parseIds, now := fun _ => 1000,
    newUUID := fun k => 100 + k, faults := noFaults }

/-- An always-valid active voucher costing 300 points. -/
def voucher300 : Voucher :=
  { ID := 2, BrandID := 9, Name := "coffee", Description := "", CostInPoint := 300,
    ValidFrom := 0, ValidTo := 0, IsActive := true }

/-- A customer with the given balance. -/
def customerWith (points : Int) : Customer :=
  { ID := 1, Name := "Ann", Email := "ann@example.org", Phone := "", Points := points, IsActive := true }

/-- A store with one customer of the given balance and the given vouchers. -/
def storeWith (points : Int) (vouchers : List Voucher) : Store :=
  { brands := [], vouchers := vouchers, customers := [customerWith points],
    transactions := [], items := [] }

/-- Scenario A and B request: two units of voucher 2. -/
def reqTwoUnits : RedemptionRequest :=
  { CustomerID := "cust-1", Items := [{ VoucherID := "vouch-2", Quantity := 2 }] }

/-- The store Scenario A leaves behind: balance 400, one transaction of 600 points, one item. -/
def storeAfterA : Store :=
  { brands := [], vouchers := [voucher300], customers := [customerWith 400],
    transactions := [{ ID := 100, CustomerID := 1, TotalPoints := 600, Status := "completed" }],
    items := [{ ID := 101, TransactionID := 100, VoucherID := 2, Quantity := 2,
                PointsPerUnit := 300, TotalPoints := 600 }] }

/-- An active voucher whose cost is 2^62 points. -/
def voucherBig : Voucher :=
  { ID := 2, BrandID := 9, Name := "jet", Description := "", CostInPoint := 4611686018427387904,
    ValidFrom := 0, ValidTo := 0, IsActive := true }

/-- Request of voucher 2 twice, one unit each. -/
def reqTwice : RedemptionRequest :=
  { CustomerID := "cust-1",
    Items := [{ VoucherID := "vouch-2", Quantity := 1 }, { VoucherID := "vouch-2", Quantity := 1 }] }



/-- Scenario C voucher: active, valid from instant 2000 on (the scenario clock reads 1000). -/
def voucherTomorrow : Voucher :=
  { ID := 3, BrandID := 9, Name := "tea", Description := "", CostInPoint := 100,
    ValidFrom := 2000, ValidTo := 0, IsActive := true }

/-- Scenario D voucher: active, valid until instant 500 (the scenario clock reads 1000). -/
def voucherExpired : Voucher :=
  { ID := 3, BrandID := 9, Name := "tea", Description := "", CostInPoint := 100,
    ValidFrom := 0, ValidTo := 500, IsActive := true }



/-- A voucher whose active flag is false. -/
def voucherInactive : Voucher :=
  { ID := 4, BrandID := 9, Name := "cake", Description := "", CostInPoint := 50,
    ValidFrom := 0, ValidTo := 0, IsActive := false }

/-- Request: one unit of voucher 3, then one unit of voucher 4. -/
def reqThreeThenFour : RedemptionRequest :=
  { CustomerID := "cust-1",
    Items := [{ VoucherID := "vouch-3", Quantity := 1 }, { VoucherID := "vouch-4", Quantity := 1 }] }

/-- Request: one unit of voucher 2, then one unit of voucher 4. -/
def reqTwoThenFour : RedemptionRequest :=
  { CustomerID := "cust-1",
    Items := [{ VoucherID := "vouch-2", Quantity := 1 }, { VoucherID := "vouch-4", Quantity := 1 }] }

/-- Scenario D request: one unit of voucher 2, then one unit of voucher 3. -/
def reqTwoThenThree : RedemptionRequest :=
  { CustomerID := "cust-1",
    Items := [{ VoucherID := "vouch-2", Quantity := 1 }, { VoucherID := "vouch-3", Quantity := 1 }] }

/-- Request: one unit each of vouchers 2, 3 and 4, in this order. -/
def reqTwoThreeFour : RedemptionRequest :=
  { CustomerID := "cust-1",
    Items := [{ VoucherID := "vouch-2", Quantity := 1 }, { VoucherID := "vouch-3", Quantity := 1 },
              { VoucherID := "vouch-4", Quantity := 1 }] }

/-- Scenario environment whose storage layer refuses the first item row. -/
def envItemFault : Env :=
  { envA with faults := { noFaults with createItem := fun i => i == 0 } }

/-- Scenario environment of a second request: as `envA`, new ids are 200, 201, ... -/
def envB : Env := { envA with newUUID := fun k => 200 + k }

/-- Request: three units of voucher 2. -/
def reqThreeUnits : RedemptionRequest :=
  { CustomerID := "cust-1", Items := [{ VoucherID := "vouch-2", Quantity := 3 }] }

/-- A store whose only customer has balance 1000 and its active flag false. -/
def storeInactiveCustomer : Store :=
  { brands := [], vouchers := [voucher300],
    customers := [{ customerWith 1000 with IsActive := false }], transactions := [], items := [] }

/-- Scenario environments of the creating handlers: every request binds, nothing is refused. -/
def brandEnv : CreateEnv CreateBrandRequest :=
  { bindError := fun _ => none, parseUUID := parseIds, newUUID := 9, createFails := false }

def voucherEnv : CreateEnv CreateVoucherRequest :=
  { bindError := fun _ => none, parseUUID := parseIds, newUUID := 2, createFails := false }

def customerEnv : CreateEnv CreateCustomerRequest :=
  { bindError := fun _ => none, parseUUID := parseIds, newUUID := 1, createFails := false }

/-- A brand request with an ordinary name. -/
def reqBrandAcme : CreateBrandRequest :=
  { Name := "Acme", Description := "", LogoURL := "", IsActive := true }

/-- The brand row `reqBrandAcme` creates. -/
def brandAcme : Brand :=
  { ID := 9, Name := "Acme", Description := "", LogoURL := "", IsActive := true }

/-- A voucher request of brand 9 costing 2^62 points, with no validity bound. -/
def reqVoucherBig : CreateVoucherRequest :=
  { BrandID := "brand-9", Name := "jet", Description := "", CostInPoint := 4611686018427387904,
    ValidFrom := 0, ValidTo := 0 }

/-- A customer request with zero points. -/
def reqCustomerZero : CreateCustomerRequest :=
  { Name := "Ann", Email := "ann@example.org", Phone := "", Points := 0 }

/-- Four requests served in sequence from the empty store: a brand, a voucher of that brand
costing 2^62, a customer with balance 0, and the redemption of two units of the voucher. -/
def overflowTrace : List Op :=
  [.createBrand brandEnv reqBrandAcme, .createVoucher voucherEnv reqVoucherBig,
   .createCustomer customerEnv reqCustomerZero, .createRedemption envA reqTwoUnits]

/-- A brand request whose name is the single character U+00E9 (two bytes in UTF-8). -/
def reqBrandOneChar : CreateBrandRequest :=
  { Name := "é", Description := "", LogoURL := "", IsActive := true }

/-- A brand request whose name is 64 times the character U+1F600 (four bytes each in
UTF-8): 64 characters, 256 bytes. -/
def reqBrandLongName : CreateBrandRequest :=
  { Name := String.mk (List.replicate 64 '😀'), Description := "", LogoURL := "", IsActive := true }

/-- A voucher request of brand 9 costing 300 points with the given validity bounds. -/
def reqVoucherWindow (validFrom validTo : Time) : CreateVoucherRequest :=
  { BrandID := "brand-9", Name := "coffee", Description := "", CostInPoint := 300,
    ValidFrom := validFrom, ValidTo := validTo }

/-- A store holding brand 9 only. -/
def storeWithBrand : Store := { emptyStore with brands := [brandAcme] }

/-! # Lemmas -/

/-! ## Machine arithmetic -/

theorem wrap64_inInt64 (x : Int) : inInt64 (wrap64 x) := by
  unfold wrap64 inInt64; omega

theorem wrap64_of_inInt64 {x : Int} (h : inInt64 x) : wrap64 x = x := by
  unfold wrap64; unfold inInt64 at h; omega

theorem wrap64_add_left (a b : Int) : wrap64 (wrap64 a + b) = wrap64 (a + b) := by
  unfold wrap64; omega

theorem wrap64_add_right (a b : Int) : wrap64 (a + wrap64 b) = wrap64 (a + b) := by
  unfold wrap64; omega

/-! ## The item loop -/

theorem validateItem_ok {env : Env} {s : Store} {idx : Nat} {item : RedemptionItem}
    {voucherID : UUID} {voucher : Voucher}
    (h : validateItem env s idx item = .ok (voucherID, voucher)) :
    env.parseUUID item.VoucherID = some voucherID ∧ findActiveVoucher s voucherID = some voucher ∧
      checkValidity voucher (env.now idx) = none := by
  unfold validateItem at h
  split at h
  · cases h
  · rename_i vid hp
    split at h
    · cases h
    · rename_i v hv
      split at h
      · cases h
      · rename_i hc
        injection h with h
        injection h with h1 h2
        subst h1; subst h2
        exact ⟨hp, hv, hc⟩

theorem validateItem_error_status {env : Env} {s : Store} {idx : Nat} {item : RedemptionItem}
    {r : Response} (h : validateItem env s idx item = .error r) :
    r = .error 400 "Invalid voucher ID" ∨ r = .error 400 "Voucher not found or inactive" ∨
      r = .error 400 "Voucher is not yet valid" ∨ r = .error 400 "Voucher has expired" := by
  unfold validateItem at h
  split at h
  · injection h with h; exact Or.inl h.symm
  · split at h
    · injection h with h; exact Or.inr (Or.inl h.symm)
    · rename_i v _
      split at h
      · rename_i msg hc
        injection h with h
        subst h
        unfold checkValidity at hc
        split at hc
        · injection hc with hc; subst hc; exact Or.inr (Or.inr (Or.inl rfl))
        · split at hc
          · injection hc with hc; subst hc; exact Or.inr (Or.inr (Or.inr rfl))
          · cases hc
      · cases h

theorem processItems_ok (env : Env) (s : Store) :
    ∀ (items : List RedemptionItem) (idx : Nat) (total : Int) (acc : List TransactionItem)
      (total' : Int) (acc' : List TransactionItem),
      processItems env s idx total acc items = .ok (total', acc') →
      ∃ news : List TransactionItem, acc' = acc ++ news ∧ news.length = items.length ∧
        wrap64 total' = wrap64 (total + sumTotals news) ∧ (inInt64 total → inInt64 total') ∧
        ∀ k item, items[k]? = some item → ∃ voucherID voucher,
          validateItem env s (idx + k) item = .ok (voucherID, voucher) ∧
          news[k]? = some (itemRow voucherID voucher item) := by
  intro items
  induction items with
  | nil =>
    intro idx total acc total' acc' h
    simp only [processItems] at h
    injection h with h
    injection h with h1 h2
    subst h1; subst h2
    exact ⟨[], by simp, rfl, by simp [sumTotals], fun h => h, by simp⟩
  | cons item rest ih =>
    intro idx total acc total' acc' h
    simp only [processItems] at h
    split at h
    · cases h
    · rename_i voucherID voucher hv
      obtain ⟨news, hacc, hlen, hsum, hin, hitems⟩ := ih _ _ _ _ _ h
      refine ⟨itemRow voucherID voucher item :: news, ?_, ?_, ?_, ?_, ?_⟩
      · rw [hacc]; simp [itemRow]
      · simp [hlen]
      · rw [hsum, wrap64_add_left]
        simp only [sumTotals, List.map_cons, List.sum_cons, itemRow]
        congr 1; ring
      · intro _; exact hin (wrap64_inInt64 _)
      · intro k it hk
        cases k with
        | zero =>
          simp only [List.getElem?_cons_zero, Option.some.injEq] at hk
          subst hk
          exact ⟨voucherID, voucher, by simpa using hv, by simp⟩
        | succ k =>
          simp only [List.getElem?_cons_succ] at hk
          obtain ⟨vid, v, h1, h2⟩ := hitems k it hk
          refine ⟨vid, v, ?_, by simpa using h2⟩
          have : idx + (k + 1) = idx + 1 + k := by omega
          rw [this]; exact h1

theorem processItems_first_failure (env : Env) (s : Store) (r : Response) (item : RedemptionItem)
    (post : List RedemptionItem) :
    ∀ (pre : List RedemptionItem) (idx : Nat) (total : Int) (acc : List TransactionItem),
      (∀ k it, pre[k]? = some it → ∃ res, validateItem env s (idx + k) it = .ok res) →
      validateItem env s (idx + pre.length) item = .error r →
      processItems env s idx total acc (pre ++ item :: post) = .error r := by
  intro pre
  induction pre with
  | nil =>
    intro idx total acc _ hfail
    simp only [List.nil_append, processItems]
    simp only [List.length_nil, Nat.add_zero] at hfail
    rw [hfail]
  | cons p pre ih =>
    intro idx total acc hpre hfail
    obtain ⟨⟨vid, v⟩, hp⟩ := hpre 0 p (by simp)
    simp only [Nat.add_zero] at hp
    simp only [List.cons_append, processItems, hp]
    apply ih
    · intro k it hk
      have := hpre (k + 1) it (by simpa using hk)
      have e : idx + (k + 1) = idx + 1 + k := by omega
      rw [e] at this; exact this
    · have e : idx + (p :: pre).length = idx + 1 + pre.length := by simp; omega
      rw [e] at hfail; exact hfail

theorem processItems_error_of_failing (env : Env) (s : Store) :
    ∀ (items : List RedemptionItem) (idx : Nat) (total : Int) (acc : List TransactionItem)
      (k : Nat) (item : RedemptionItem) (r : Response),
      items[k]? = some item → validateItem env s (idx + k) item = .error r →
      ∃ msg, processItems env s idx total acc items = .error (.error 400 msg) := by
  intro items
  induction items with
  | nil => intro idx total acc k item r hk; simp at hk
  | cons head rest ih =>
    intro idx total acc k item r hk hfail
    simp only [processItems]
    split
    · rename_i r' hr'
      rcases validateItem_error_status hr' with h | h | h | h <;> exact ⟨_, by rw [h]⟩
    · rename_i voucherID voucher hv
      cases k with
      | zero =>
        simp only [List.getElem?_cons_zero, Option.some.injEq] at hk
        subst hk
        simp only [Nat.add_zero] at hfail
        rw [hfail] at hv; cases hv
      | succ k =>
        simp only [List.getElem?_cons_succ] at hk
        have e : idx + (k + 1) = idx + 1 + k := by omega
        rw [e] at hfail
        exact ih _ _ _ k item r hk hfail

/-! ## The unit of work -/

theorem createItems_some (env : Env) (tid : UUID) :
    ∀ (l : List TransactionItem) (i : Nat) (tx tx' : Store),
      createItems env tid i tx l = some tx' →
      tx' = { tx with items := tx.items ++ stampItems env tid i l } ∧
        ∀ k < l.length, env.faults.createItem (i + k) = false := by
  intro l
  induction l with
  | nil =>
    intro i tx tx' h
    simp only [createItems, Option.some.injEq] at h
    subst h
    simp [stampItems]
  | cons it rest ih =>
    intro i tx tx' h
    simp only [createItems] at h
    split at h
    · cases h
    · rename_i tx1 h1
      unfold txCreateItem at h1
      split at h1
      · cases h1
      · rename_i hc
        injection h1 with h1
        subst h1
        obtain ⟨e, hf⟩ := ih _ _ _ h
        refine ⟨?_, ?_⟩
        · rw [e]; simp [stampItems]
        · intro k hk
          cases k with
          | zero =>
            simp only [Bool.or_eq_true, not_or, Bool.not_eq_true] at hc
            simpa using hc.1
          | succ k =>
            have := hf k (by simpa using hk)
            have e2 : i + (k + 1) = i + 1 + k := by omega
            rw [e2]; exact this

theorem createItems_accepts (env : Env) (tid : UUID) :
    ∀ (l : List TransactionItem) (i : Nat) (tx : Store),
      (∀ it ∈ l, it.ID = uuidNil) →
      (∀ k < l.length, env.faults.createItem (i + k) = false) →
      (∀ k < l.length, ∀ r ∈ tx.items, r.ID ≠ env.newUUID (i + k + 1)) →
      (∀ k < l.length, ∀ j < k, env.newUUID (i + j + 1) ≠ env.newUUID (i + k + 1)) →
      createItems env tid i tx l = some { tx with items := tx.items ++ stampItems env tid i l } := by
  intro l
  induction l with
  | nil => intro i tx _ _ _ _; simp [createItems, stampItems]
  | cons it rest ih =>
    intro i tx hnil hf hfresh hdist
    have hid : it.ID = uuidNil := hnil it (by simp)
    have h0 : env.faults.createItem i = false := by simpa using hf 0 (by simp)
    have hfr0 : ∀ r ∈ tx.items, r.ID ≠ env.newUUID (i + 1) := by simpa using hfresh 0 (by simp)
    have hany : (tx.items.any fun r => r.ID == env.newUUID (i + 1)) = false := by
      rw [List.any_eq_false]
      intro r hr
      simpa using hfr0 r hr
    simp only [createItems, txCreateItem, hid, beforeCreate, beq_self_eq_true, if_true, h0, hany,
      Bool.or_self, Bool.false_eq_true, if_false]
    rw [ih (i + 1)]
    · simp [stampItems, hid, beforeCreate]
    · intro x hx; exact hnil x (by simp [hx])
    · intro k hk
      have := hf (k + 1) (by simpa using hk)
      have e : i + (k + 1) = i + 1 + k := by omega
      rw [e] at this; exact this
    · intro k hk r hr
      have e : i + 1 + k + 1 = i + (k + 1) + 1 := by omega
      rw [e]
      simp only [List.mem_append, List.mem_singleton] at hr
      rcases hr with hr | hr
      · exact hfresh (k + 1) (by simpa using hk) r hr
      · subst hr
        have := hdist (k + 1) (by simpa using hk) 0 (by omega)
        simpa using this
    · intro k hk j hj
      have := hdist (k + 1) (by simpa using hk) (j + 1) (by omega)
      have e1 : i + 1 + j + 1 = i + (j + 1) + 1 := by omega
      have e2 : i + 1 + k + 1 = i + (k + 1) + 1 := by omega
      rw [e1, e2]; exact this

theorem commit_cases (env : Env) (s : Store) (p : Plan) :
    (commit env s p = (.success 201 "Redemption successful", committed env s p) ∧
        ¬ SomeWriteFails env p.transactionItems.length) ∨
      ∃ msg, msg ∈ ["Failed to create transaction", "Failed to create transaction items",
          "Failed to update customer points", "Failed to commit transaction"] ∧
        commit env s p = (.error 500 msg, s) := by
  have hrow : (⟨beforeCreate uuidNil (env.newUUID 0), p.customerID, p.totalPoints, "completed"⟩ :
      Transaction) = transactionRow env p := rfl
  simp only [commit, hrow]
  cases h1 : txCreateTransaction env.faults s (transactionRow env p) with
  | none => exact Or.inr ⟨_, by simp, rfl⟩
  | some tx1 =>
    dsimp only
    cases h2 : createItems env (beforeCreate uuidNil (env.newUUID 0)) 0 tx1 p.transactionItems with
    | none => exact Or.inr ⟨_, by simp, rfl⟩
    | some tx2 =>
      dsimp only
      cases h3 : txUpdatePoints env.faults tx2 p.customer.ID (wrap64 (p.customer.Points - p.totalPoints)) with
      | none => exact Or.inr ⟨_, by simp, rfl⟩
      | some tx3 =>
        dsimp only
        by_cases hc : env.faults.commit = true
        · simp only [hc, if_true]; exact Or.inr ⟨_, by simp, rfl⟩
        · simp only [hc, if_false]
          left
          unfold txCreateTransaction at h1
          split at h1
          · cases h1
          · rename_i hct
            injection h1 with h1
            obtain ⟨e2, hf⟩ := createItems_some env _ _ _ _ _ h2
            unfold txUpdatePoints at h3
            split at h3
            · cases h3
            · rename_i hup
              injection h3 with h3
              refine ⟨?_, ?_⟩
              · rw [← h3, e2, ← h1]
                rfl
              · simp only [Bool.or_eq_true, not_or, Bool.not_eq_true] at hct
                simp only [Bool.not_eq_true] at hup hc
                unfold SomeWriteFails
                rintro (h | ⟨i, hi, h⟩ | h | h)
                · rw [hct.1] at h; cases h
                · have := hf i hi
                  simp only [Nat.zero_add] at this
                  rw [this] at h; cases h
                · rw [hup] at h; cases h
                · rw [hc] at h; cases h

theorem commit_accepts (env : Env) (s : Store) (p : Plan)
    (hnil : ∀ it ∈ p.transactionItems, it.ID = uuidNil)
    (h : StorageAccepts env s p.transactionItems.length) :
    commit env s p = (.success 201 "Redemption successful", committed env s p) := by
  obtain ⟨h1, h2, h3, h4, h5, h6, h7⟩ := h
  have hany : (s.transactions.any fun r => r.ID == env.newUUID 0) = false := by
    rw [List.any_eq_false]
    intro r hr
    simpa using h5 r hr
  unfold commit
  simp only [txCreateTransaction, h1, beforeCreate, beq_self_eq_true, if_true, hany, Bool.or_self,
    Bool.false_eq_true, if_false]
  rw [createItems_accepts env _ p.transactionItems 0 _ hnil]
  · simp only [txUpdatePoints, h3, h4, Bool.false_eq_true, if_false]
    rfl
  · intro k hk; simpa using h2 k hk
  · intro k hk r hr; simpa using h6 k hk r hr
  · intro k hk j hj; simpa using h7 k hk j hj

/-! ## The handler as a whole -/

theorem processItems_error_status (env : Env) (s : Store) :
    ∀ (items : List RedemptionItem) (idx : Nat) (total : Int) (acc : List TransactionItem)
      (r : Response), processItems env s idx total acc items = .error r →
      ∃ msg, r = .error 400 msg := by
  intro items
  induction items with
  | nil => intro idx total acc r h; simp [processItems] at h
  | cons head rest ih =>
    intro idx total acc r h
    simp only [processItems] at h
    split at h
    · rename_i r' hr'
      injection h with h
      subst h
      rcases validateItem_error_status hr' with h | h | h | h <;> exact ⟨_, h⟩
    · exact ih _ _ _ _ h

theorem prepare_eq {env : Env} {s : Store} {req : RedemptionRequest} {customerID : UUID}
    {customer : Customer} (hb : env.bindError req = none)
    (hp : env.parseUUID req.CustomerID = some customerID)
    (hc : findCustomer s customerID = some customer) :
    prepare env s req =
      match processItems env s 0 0 [] req.Items with
      | .error r => .error r
      | .ok (totalPoints, transactionItems) =>
        if customer.Points < totalPoints then .error (.error 400 "Insufficient points")
        else .ok { customerID := customerID, customer := customer,
                   totalPoints := totalPoints, transactionItems := transactionItems } := by
  simp only [prepare, hb, hp, hc]

theorem prepare_ok {env : Env} {s : Store} {req : RedemptionRequest} {p : Plan}
    (h : prepare env s req = .ok p) :
    env.bindError req = none ∧ env.parseUUID req.CustomerID = some p.customerID ∧
      findCustomer s p.customerID = some p.customer ∧
      processItems env s 0 0 [] req.Items = .ok (p.totalPoints, p.transactionItems) ∧
      ¬ p.customer.Points < p.totalPoints := by
  unfold prepare at h
  split at h
  · cases h
  · rename_i hb
    split at h
    · cases h
    · rename_i cid hp
      split at h
      · cases h
      · rename_i c hc
        split at h
        · cases h
        · rename_i total items hl
          split at h
          · cases h
          · rename_i hlt
            injection h with h
            subst h
            exact ⟨hb, hp, hc, hl, hlt⟩

theorem prepare_error_status {env : Env} {s : Store} {req : RedemptionRequest} {r : Response}
    (h : prepare env s req = .error r) : ∃ msg, r = .error 400 msg := by
  unfold prepare at h
  split at h
  · injection h with h; exact ⟨_, h.symm⟩
  · split at h
    · injection h with h; exact ⟨_, h.symm⟩
    · split at h
      · injection h with h; exact ⟨_, h.symm⟩
      · split at h
        · rename_i r' hr'
          injection h with h
          subst h
          exact processItems_error_status env s _ _ _ _ _ hr'
        · split at h
          · injection h with h; exact ⟨_, h.symm⟩
          · cases h

theorem CreateRedemption_of_prepare_error {env : Env} {s : Store} {req : RedemptionRequest}
    {r : Response} (h : prepare env s req = .error r) : CreateRedemption env s req = (r, s) := by
  simp only [CreateRedemption, h]

theorem CreateRedemption_of_prepare_ok {env : Env} {s : Store} {req : RedemptionRequest}
    {p : Plan} (h : prepare env s req = .ok p) : CreateRedemption env s req = commit env s p := by
  simp only [CreateRedemption, h]

theorem CreateRedemption_success {env : Env} {s s' : Store} {req : RedemptionRequest}
    {st : Nat} {msg : String} (h : CreateRedemption env s req = (.success st msg, s')) :
    ∃ p, prepare env s req = .ok p ∧ s' = committed env s p ∧
      ¬ SomeWriteFails env p.transactionItems.length := by
  cases hp : prepare env s req with
  | error r =>
    rw [CreateRedemption_of_prepare_error hp] at h
    obtain ⟨m, hm⟩ := prepare_error_status hp
    subst hm
    cases h
  | ok p =>
    rw [CreateRedemption_of_prepare_ok hp] at h
    rcases commit_cases env s p with ⟨hc, hnf⟩ | ⟨m, _, hc⟩
    · rw [hc] at h
      injection h with _ h2
      exact ⟨p, rfl, h2.symm, hnf⟩
    · rw [hc] at h; cases h

theorem CreateRedemption_error_store (env : Env) (s : Store) (req : RedemptionRequest)
    {st : Nat} {msg : String} (h : (CreateRedemption env s req).1 = .error st msg) :
    (CreateRedemption env s req).2 = s := by
  cases hp : prepare env s req with
  | error r => rw [CreateRedemption_of_prepare_error hp]
  | ok p =>
    rw [CreateRedemption_of_prepare_ok hp] at h ⊢
    rcases commit_cases env s p with ⟨hc, _⟩ | ⟨m, _, hc⟩
    · rw [hc] at h; cases h
    · rw [hc]

/-! ## Rows written -/

theorem stampItems_getElem? (env : Env) (tid : UUID) :
    ∀ (l : List TransactionItem) (i k : Nat),
      (stampItems env tid i l)[k]? =
        l[k]?.map (fun it =>
          { it with TransactionID := tid, ID := beforeCreate it.ID (env.newUUID (i + k + 1)) }) := by
  intro l
  induction l with
  | nil => intro i k; simp [stampItems]
  | cons it rest ih =>
    intro i k
    cases k with
    | zero => simp [stampItems]
    | succ k =>
      simp only [stampItems, List.getElem?_cons_succ, ih]
      have e : i + 1 + k + 1 = i + (k + 1) + 1 := by omega
      rw [e]

theorem stampItems_length (env : Env) (tid : UUID) :
    ∀ (l : List TransactionItem) (i : Nat), (stampItems env tid i l).length = l.length := by
  intro l
  induction l with
  | nil => intro i; simp [stampItems]
  | cons it rest ih => intro i; simp [stampItems, ih]

theorem stampItems_sumTotals (env : Env) (tid : UUID) :
    ∀ (l : List TransactionItem) (i : Nat), sumTotals (stampItems env tid i l) = sumTotals l := by
  intro l
  induction l with
  | nil => intro i; simp [stampItems]
  | cons it rest ih =>
    intro i
    have := ih (i + 1)
    simp only [sumTotals, stampItems, List.map_cons, List.sum_cons] at this ⊢
    rw [this]

theorem stampItems_transactionID (env : Env) (tid : UUID) :
    ∀ (l : List TransactionItem) (i : Nat), ∀ it ∈ stampItems env tid i l, it.TransactionID = tid := by
  intro l
  induction l with
  | nil => intro i it h; simp [stampItems] at h
  | cons x rest ih =>
    intro i it h
    simp only [stampItems, List.mem_cons] at h
    rcases h with h | h
    · subst h; rfl
    · exact ih _ _ h

/-! ## Lookups after the balance update -/

theorem find?_map_of_invariant {α : Type} (q : α → Bool) (f : α → α) (hqf : ∀ a, q (f a) = q a) :
    ∀ l : List α, (l.map f).find? q = (l.find? q).map f := by
  intro l
  induction l with
  | nil => rfl
  | cons a l ih =>
    rw [List.map_cons, List.find?_cons, List.find?_cons, hqf a]
    cases q a
    · exact ih
    · rfl

theorem find?_setPoints (customerID : UUID) (v : Int) (id : UUID) (l : List Customer) :
    (setPoints l customerID v).find? (fun c => c.ID == id) =
      (l.find? (fun c => c.ID == id)).map
        (fun c => if c.ID == customerID then { c with Points := v } else c) := by
  unfold setPoints
  apply find?_map_of_invariant
  intro a
  dsimp only
  split <;> rfl

theorem findCustomer_id {s : Store} {id : UUID} {c : Customer} (h : findCustomer s id = some c) :
    c.ID = id := by
  unfold findCustomer at h
  have := List.find?_some h
  simpa using this

theorem findCustomer_committed_self {env : Env} {s : Store} {p : Plan}
    (h : findCustomer s p.customerID = some p.customer) :
    findCustomer (committed env s p) p.customerID =
      some { p.customer with Points := wrap64 (p.customer.Points - p.totalPoints) } := by
  have hid := findCustomer_id h
  unfold findCustomer at h ⊢
  simp only [committed, find?_setPoints, h, Option.map_some', hid, beq_self_eq_true, if_true]

theorem findCustomer_committed_other {env : Env} {s : Store} {p : Plan} {id : UUID}
    (h : findCustomer s p.customerID = some p.customer) (hne : id ≠ p.customerID) :
    findCustomer (committed env s p) id = findCustomer s id := by
  have hid := findCustomer_id h
  unfold findCustomer
  simp only [committed, find?_setPoints]
  cases hf : s.customers.find? (fun c => c.ID == id) with
  | none => rfl
  | some c =>
    have hc : c.ID = id := by simpa using List.find?_some hf
    have : (c.ID == p.customer.ID) = false := by
      rw [hid, hc]; simpa using hne
    simp only [Option.map_some', this, Bool.false_eq_true, if_false]

/-! # Claims -/

/-! ## Redemption totals and balances -/

/-- C1 (as amended): on every successful redemption exactly one transaction row and its
item rows are appended, every new item carries the new transaction's id, and the
transaction's `TotalPoints` is the sum of the items' `TotalPoints` reduced to the 64-bit
range; the two are equal as integers whenever that sum lies in the range of a Go `int`. -/
theorem C1_total_is_wrapped_item_sum (env : Env) (s s' : Store) (req : RedemptionRequest)
    (st : Nat) (msg : String) (h : CreateRedemption env s req = (.success st msg, s')) :
    ∃ (t : Transaction) (its : List TransactionItem),
      s'.transactions = s.transactions ++ [t] ∧ s'.items = s.items ++ its ∧
      (∀ it ∈ its, it.TransactionID = t.ID) ∧
      t.TotalPoints = wrap64 (sumTotals its) ∧
      (inInt64 (sumTotals its) → sumTotals its = t.TotalPoints) := by
  obtain ⟨p, hp, hs, _⟩ := CreateRedemption_success h
  obtain ⟨_, _, _, hl, _⟩ := prepare_ok hp
  obtain ⟨news, hacc, _, hsum, hin, _⟩ := processItems_ok env s _ _ _ _ _ _ hl
  have hrange : inInt64 p.totalPoints := hin (by unfold inInt64; omega)
  have hnews : p.transactionItems = news := by simpa using hacc
  have htot : p.totalPoints = wrap64 (sumTotals p.transactionItems) := by
    rw [hnews, ← wrap64_of_inInt64 hrange, hsum, Int.zero_add]
  refine ⟨transactionRow env p, stampItems env (transactionRow env p).ID 0 p.transactionItems,
    ?_, ?_, ?_, ?_, ?_⟩
  · rw [hs]; rfl
  · rw [hs]; rfl
  · exact stampItems_transactionID env _ _ _
  · rw [stampItems_sumTotals]; exact htot
  · intro hr
    rw [stampItems_sumTotals] at hr ⊢
    show _ = p.totalPoints
    rw [htot, wrap64_of_inInt64 hr]

/-- C1 witness: Scenario A, one item of 2 × 300 points against a balance of 1000. -/
theorem C1_total_is_wrapped_item_sum_witness :
    CreateRedemption envA (storeWith 1000 [voucher300]) reqTwoUnits =
        (.success 201 "Redemption successful", storeAfterA) ∧
      ∃ (t : Transaction) (its : List TransactionItem),
        storeAfterA.transactions = (storeWith 1000 [voucher300]).transactions ++ [t] ∧
        storeAfterA.items = (storeWith 1000 [voucher300]).items ++ its ∧
        (∀ it ∈ its, it.TransactionID = t.ID) ∧
        t.TotalPoints = wrap64 (sumTotals its) ∧
        (inInt64 (sumTotals its) → sumTotals its = t.TotalPoints) :=
  ⟨by decide, C1_total_is_wrapped_item_sum envA (storeWith 1000 [voucher300]) storeAfterA
    reqTwoUnits 201 "Redemption successful" (by decide)⟩

/-- C1 counterexample: balance 0 and two items of one unit of a voucher costing 2^62.
The redemption succeeds, the two item rows carry 2^62 points each (sum 2^63), and the
transaction row carries -2^63. -/
theorem C1_counterexample :
    (CreateRedemption envA (storeWith 0 [voucherBig]) reqTwice).1 =
        .success 201 "Redemption successful" ∧
      (CreateRedemption envA (storeWith 0 [voucherBig]) reqTwice).2.transactions =
        [{ ID := 100, CustomerID := 1, TotalPoints := -9223372036854775808, Status := "completed" }] ∧
      (CreateRedemption envA (storeWith 0 [voucherBig]) reqTwice).2.items =
        [{ ID := 101, TransactionID := 100, VoucherID := 2, Quantity := 1,
           PointsPerUnit := 4611686018427387904, TotalPoints := 4611686018427387904 },
         { ID := 102, TransactionID := 100, VoucherID := 2, Quantity := 1,
           PointsPerUnit := 4611686018427387904, TotalPoints := 4611686018427387904 }] ∧
      sumTotals (CreateRedemption envA (storeWith 0 [voucherBig]) reqTwice).2.items =
        9223372036854775808 ∧
      (9223372036854775808 : Int) ≠ -9223372036854775808 := by
  decide

/-- C2 (as amended): on every successful redemption the customer's balance after the call
is the balance before minus the new transaction's `TotalPoints`, reduced to the 64-bit
range; it is that exact difference whenever the difference is below 2^63 (in particular
whenever the total is not negative).  Every other customer keeps its row, and the only
change to the customers table is the `Points` of the rows with the requesting id. -/
theorem C2_balance_decrement (env : Env) (s s' : Store) (req : RedemptionRequest)
    (st : Nat) (msg : String) (h : CreateRedemption env s req = (.success st msg, s')) :
    ∃ (customerID : UUID) (c : Customer) (t : Transaction),
      env.parseUUID req.CustomerID = some customerID ∧ findCustomer s customerID = some c ∧
      s'.transactions = s.transactions ++ [t] ∧ t.CustomerID = customerID ∧
      findCustomer s' customerID = some { c with Points := wrap64 (c.Points - t.TotalPoints) } ∧
      (c.Points - t.TotalPoints < 9223372036854775808 →
        findCustomer s' customerID = some { c with Points := c.Points - t.TotalPoints }) ∧
      (∀ id, id ≠ customerID → findCustomer s' id = findCustomer s id) ∧
      s'.customers = setPoints s.customers customerID (wrap64 (c.Points - t.TotalPoints)) := by
  obtain ⟨p, hp, hs, _⟩ := CreateRedemption_success h
  obtain ⟨_, hparse, hfind, _, hge⟩ := prepare_ok hp
  have hid := findCustomer_id hfind
  refine ⟨p.customerID, p.customer, transactionRow env p, hparse, hfind, ?_, rfl, ?_, ?_, ?_, ?_⟩
  · rw [hs]; rfl
  · rw [hs]; exact findCustomer_committed_self hfind
  · intro hlt
    rw [hs, findCustomer_committed_self hfind]
    have : wrap64 (p.customer.Points - p.totalPoints) = p.customer.Points - p.totalPoints := by
      apply wrap64_of_inInt64
      have : (transactionRow env p).TotalPoints = p.totalPoints := rfl
      rw [this] at hlt
      unfold inInt64; omega
    rw [this]; rfl
  · intro id hne
    rw [hs]; exact findCustomer_committed_other hfind hne
  · rw [hs]
    show setPoints s.customers p.customer.ID _ = _
    rw [hid]; rfl

/-- C2 witness: Scenario A, balance 1000, total 600, balance afterwards 400. -/
theorem C2_balance_decrement_witness :
    CreateRedemption envA (storeWith 1000 [voucher300]) reqTwoUnits =
        (.success 201 "Redemption successful", storeAfterA) ∧
      ∃ (customerID : UUID) (c : Customer) (t : Transaction),
        envA.parseUUID reqTwoUnits.CustomerID = some customerID ∧
        findCustomer (storeWith 1000 [voucher300]) customerID = some c ∧
        storeAfterA.transactions = (storeWith 1000 [voucher300]).transactions ++ [t] ∧
        t.CustomerID = customerID ∧
        findCustomer storeAfterA customerID =
          some { c with Points := wrap64 (c.Points - t.TotalPoints) } ∧
        (c.Points - t.TotalPoints < 9223372036854775808 →
          findCustomer storeAfterA customerID =
            some { c with Points := c.Points - t.TotalPoints }) ∧
        (∀ id, id ≠ customerID →
          findCustomer storeAfterA id = findCustomer (storeWith 1000 [voucher300]) id) ∧
        storeAfterA.customers =
          setPoints (storeWith 1000 [voucher300]).customers customerID
            (wrap64 (c.Points - t.TotalPoints)) :=
  ⟨by decide, C2_balance_decrement envA (storeWith 1000 [voucher300]) storeAfterA reqTwoUnits 201
    "Redemption successful" (by decide)⟩

/-- C2 counterexample: balance 0 and two units of a voucher costing 2^62.  The computed
total is -2^63, the redemption succeeds, and the balance afterwards is -2^63, which is not
the balance before (0) minus the transaction's `TotalPoints` (-2^63). -/
theorem C2_counterexample :
    (CreateRedemption envA (storeWith 0 [voucherBig]) reqTwoUnits).1 =
        .success 201 "Redemption successful" ∧
      findCustomer (storeWith 0 [voucherBig]) 1 = some (customerWith 0) ∧
      (CreateRedemption envA (storeWith 0 [voucherBig]) reqTwoUnits).2.transactions =
        [{ ID := 100, CustomerID := 1, TotalPoints := -9223372036854775808, Status := "completed" }] ∧
      findCustomer (CreateRedemption envA (storeWith 0 [voucherBig]) reqTwoUnits).2 1 =
        some (customerWith (-9223372036854775808)) ∧
      (-9223372036854775808 : Int) ≠ 0 - (-9223372036854775808) := by
  decide

/-! ## The balance check -/

/-- C3: when the request binds, the customer exists, every item passes validation and the
total computed by the item loop exceeds the customer's balance, `CreateRedemption` answers
400 "Insufficient points" and leaves the whole store as it was: same balance, no
transaction row, no item row. -/
theorem C3_insufficient_points_rejected (env : Env) (s : Store) (req : RedemptionRequest)
    (customerID : UUID) (c : Customer) (totalPoints : Int) (transactionItems : List TransactionItem)
    (hb : env.bindError req = none) (hp : env.parseUUID req.CustomerID = some customerID)
    (hc : findCustomer s customerID = some c)
    (hl : processItems env s 0 0 [] req.Items = .ok (totalPoints, transactionItems))
    (hlt : c.Points < totalPoints) :
    CreateRedemption env s req = (.error 400 "Insufficient points", s) := by
  apply CreateRedemption_of_prepare_error
  rw [prepare_eq hb hp hc, hl]
  simp only [hlt, if_true]

/-- C3 witness: Scenario B, balance 500 against two units of cost 300. -/
theorem C3_insufficient_points_rejected_witness :
    (envA.bindError reqTwoUnits = none ∧ envA.parseUUID reqTwoUnits.CustomerID = some 1 ∧
      findCustomer (storeWith 500 [voucher300]) 1 = some (customerWith 500) ∧
      processItems envA (storeWith 500 [voucher300]) 0 0 [] reqTwoUnits.Items =
        .ok (600, [itemRow 2 voucher300 { VoucherID := "vouch-2", Quantity := 2 }]) ∧
      (customerWith 500).Points < 600) ∧
    CreateRedemption envA (storeWith 500 [voucher300]) reqTwoUnits =
      (.error 400 "Insufficient points", storeWith 500 [voucher300]) :=
  ⟨⟨rfl, rfl, rfl, rfl, by decide⟩,
    C3_insufficient_points_rejected envA (storeWith 500 [voucher300]) reqTwoUnits 1 (customerWith 500)
      600 [itemRow 2 voucher300 { VoucherID := "vouch-2", Quantity := 2 }] rfl rfl rfl rfl
      (by decide)⟩

/-- C4: when the request binds, the customer exists and every item passes validation, the
handler answers 400 "Insufficient points" if and only if the balance is strictly below the
computed total; when the two are equal the request passes the check and, the storage layer
accepting the writes, succeeds and leaves the balance at exactly zero. -/
theorem C4_balance_check_strict (env : Env) (s : Store) (req : RedemptionRequest)
    (customerID : UUID) (c : Customer) (totalPoints : Int) (transactionItems : List TransactionItem)
    (hb : env.bindError req = none) (hp : env.parseUUID req.CustomerID = some customerID)
    (hc : findCustomer s customerID = some c)
    (hl : processItems env s 0 0 [] req.Items = .ok (totalPoints, transactionItems)) :
    ((CreateRedemption env s req).1 = .error 400 "Insufficient points" ↔ c.Points < totalPoints) ∧
    (c.Points = totalPoints →
      (∃ p, prepare env s req = .ok p) ∧
      (StorageAccepts env s req.Items.length →
        (CreateRedemption env s req).1 = .success 201 "Redemption successful" ∧
        findCustomer (CreateRedemption env s req).2 customerID = some { c with Points := 0 })) := by
  have hprep := prepare_eq hb hp hc
  rw [hl] at hprep
  dsimp only at hprep
  refine ⟨⟨?_, ?_⟩, ?_⟩
  · intro h
    by_contra hge
    rw [if_neg hge] at hprep
    rw [CreateRedemption_of_prepare_ok hprep] at h
    rcases commit_cases env s _ with ⟨hcm, _⟩ | ⟨m, _, hcm⟩
    · rw [hcm] at h; cases h
    · rw [hcm] at h; cases h
  · intro hlt
    rw [if_pos hlt] at hprep
    rw [CreateRedemption_of_prepare_error hprep]
  · intro heq
    have hge : ¬ c.Points < totalPoints := by omega
    rw [if_neg hge] at hprep
    refine ⟨⟨_, hprep⟩, ?_⟩
    intro hacc
    obtain ⟨news, hacc', hlen, _, _, hrows⟩ := processItems_ok env s _ _ _ _ _ _ hl
    have hnews : transactionItems = news := by simpa using hacc'
    have hnil : ∀ it ∈ transactionItems, it.ID = uuidNil := by
      intro it hit
      rw [hnews] at hit
      obtain ⟨k, hk, hget⟩ := List.getElem_of_mem hit
      have hk' : k < req.Items.length := by omega
      obtain ⟨vid, v, _, hrow⟩ := hrows k req.Items[k] (List.getElem?_eq_getElem hk')
      rw [List.getElem?_eq_getElem hk, Option.some.injEq] at hrow
      rw [← hget, hrow]; rfl
    have hlen' : transactionItems.length = req.Items.length := by rw [hnews]; exact hlen
    rw [CreateRedemption_of_prepare_ok hprep]
    rw [commit_accepts env s _ hnil (by rw [show _ = transactionItems.length from rfl, hlen']; exact hacc)]
    refine ⟨rfl, ?_⟩
    dsimp only
    rw [findCustomer_committed_self hc]
    dsimp only
    rw [heq]
    have : wrap64 (totalPoints - totalPoints) = 0 := by
      rw [Int.sub_self]; rfl
    rw [this]

/-- C4 witness: balance 600 against two units of cost 300; the balance ends at zero. -/
theorem C4_balance_check_strict_witness :
    (envA.bindError reqTwoUnits = none ∧ envA.parseUUID reqTwoUnits.CustomerID = some 1 ∧
      findCustomer (storeWith 600 [voucher300]) 1 = some (customerWith 600) ∧
      processItems envA (storeWith 600 [voucher300]) 0 0 [] reqTwoUnits.Items =
        .ok (600, [itemRow 2 voucher300 { VoucherID := "vouch-2", Quantity := 2 }])) ∧
    ((CreateRedemption envA (storeWith 600 [voucher300]) reqTwoUnits).1 =
        .error 400 "Insufficient points" ↔ (customerWith 600).Points < 600) ∧
    ((customerWith 600).Points = 600 →
      (∃ p, prepare envA (storeWith 600 [voucher300]) reqTwoUnits = .ok p) ∧
      (StorageAccepts envA (storeWith 600 [voucher300]) reqTwoUnits.Items.length →
        (CreateRedemption envA (storeWith 600 [voucher300]) reqTwoUnits).1 =
          .success 201 "Redemption successful" ∧
        findCustomer (CreateRedemption envA (storeWith 600 [voucher300]) reqTwoUnits).2 1 =
          some { customerWith 600 with Points := 0 })) :=
  ⟨⟨rfl, rfl, rfl, rfl⟩,
    C4_balance_check_strict envA (storeWith 600 [voucher300]) reqTwoUnits 1 (customerWith 600)
      600 [itemRow 2 voucher300 { VoucherID := "vouch-2", Quantity := 2 }] rfl rfl rfl rfl⟩

/-! ## Voucher validation -/

/-- C5: for a request item resolved to an active voucher, the loop body fails with
"Voucher is not yet valid" exactly when `ValidFrom` is set and `now < ValidFrom`, fails with
"Voucher has expired" exactly when that first check does not fail, `ValidTo` is set and
`now > ValidTo`, and passes otherwise; an unset bound never fails, and `now` equal to either
bound is accepted by that bound. -/
theorem C5_validity_window (env : Env) (s : Store) (idx : Nat) (item : RedemptionItem)
    (voucherID : UUID) (voucher : Voucher)
    (hp : env.parseUUID item.VoucherID = some voucherID)
    (hv : findActiveVoucher s voucherID = some voucher) :
    (validateItem env s idx item = .error (.error 400 "Voucher is not yet valid") ↔
        voucher.ValidFrom ≠ 0 ∧ env.now idx < voucher.ValidFrom) ∧
    (validateItem env s idx item = .error (.error 400 "Voucher has expired") ↔
        ¬ (voucher.ValidFrom ≠ 0 ∧ env.now idx < voucher.ValidFrom) ∧
          voucher.ValidTo ≠ 0 ∧ env.now idx > voucher.ValidTo) ∧
    (validateItem env s idx item = .ok (voucherID, voucher) ↔
        ¬ (voucher.ValidFrom ≠ 0 ∧ env.now idx < voucher.ValidFrom) ∧
          ¬ (voucher.ValidTo ≠ 0 ∧ env.now idx > voucher.ValidTo)) ∧
    (voucher.ValidFrom = 0 ∨ env.now idx = voucher.ValidFrom →
        validateItem env s idx item ≠ .error (.error 400 "Voucher is not yet valid")) ∧
    (voucher.ValidTo = 0 ∨ env.now idx = voucher.ValidTo →
        validateItem env s idx item ≠ .error (.error 400 "Voucher has expired")) := by
  have hval : validateItem env s idx item =
      match checkValidity voucher (env.now idx) with
      | some msg => .error (.error 400 msg)
      | none => .ok (voucherID, voucher) := by
    simp only [validateItem, hp, hv]
  have key : (voucher.ValidFrom ≠ 0 ∧ env.now idx < voucher.ValidFrom →
        validateItem env s idx item = .error (.error 400 "Voucher is not yet valid")) ∧
      (¬ (voucher.ValidFrom ≠ 0 ∧ env.now idx < voucher.ValidFrom) →
        voucher.ValidTo ≠ 0 ∧ env.now idx > voucher.ValidTo →
        validateItem env s idx item = .error (.error 400 "Voucher has expired")) ∧
      (¬ (voucher.ValidFrom ≠ 0 ∧ env.now idx < voucher.ValidFrom) →
        ¬ (voucher.ValidTo ≠ 0 ∧ env.now idx > voucher.ValidTo) →
        validateItem env s idx item = .ok (voucherID, voucher)) := by
    refine ⟨?_, ?_, ?_⟩
    · intro h
      have hcond : (!voucher.ValidFrom.IsZero && (env.now idx).Before voucher.ValidFrom) = true := by
        simp [Time.IsZero, Time.Before, h.1, h.2]
      rw [hval]; unfold checkValidity; rw [if_pos hcond]
    · intro h1 h2
      have hc1 : ¬ (!voucher.ValidFrom.IsZero && (env.now idx).Before voucher.ValidFrom) = true := by
        simpa [Time.IsZero, Time.Before] using h1
      have hc2 : (!voucher.ValidTo.IsZero && (env.now idx).After voucher.ValidTo) = true := by
        simp [Time.IsZero, Time.After, h2.1, h2.2]
      rw [hval]; unfold checkValidity; rw [if_neg hc1, if_pos hc2]
    · intro h1 h2
      have hc1 : ¬ (!voucher.ValidFrom.IsZero && (env.now idx).Before voucher.ValidFrom) = true := by
        simpa [Time.IsZero, Time.Before] using h1
      have hc2 : ¬ (!voucher.ValidTo.IsZero && (env.now idx).After voucher.ValidTo) = true := by
        simpa [Time.IsZero, Time.After] using h2
      rw [hval]; unfold checkValidity; rw [if_neg hc1, if_neg hc2]
  obtain ⟨k1, k2, k3⟩ := key
  have iff1 : validateItem env s idx item = .error (.error 400 "Voucher is not yet valid") ↔
      voucher.ValidFrom ≠ 0 ∧ env.now idx < voucher.ValidFrom := by
    constructor
    · intro h
      by_contra hn
      by_cases h2 : voucher.ValidTo ≠ 0 ∧ env.now idx > voucher.ValidTo
      · rw [k2 hn h2] at h
        injection h with h
        injection h with _ h
        exact absurd h (by decide)
      · rw [k3 hn h2] at h; cases h
    · exact k1
  have iff2 : validateItem env s idx item = .error (.error 400 "Voucher has expired") ↔
      ¬ (voucher.ValidFrom ≠ 0 ∧ env.now idx < voucher.ValidFrom) ∧
        voucher.ValidTo ≠ 0 ∧ env.now idx > voucher.ValidTo := by
    constructor
    · intro h
      by_cases h1 : voucher.ValidFrom ≠ 0 ∧ env.now idx < voucher.ValidFrom
      · rw [k1 h1] at h
        injection h with h
        injection h with _ h
        exact absurd h (by decide)
      · refine ⟨h1, ?_⟩
        by_contra h2
        rw [k3 h1 h2] at h; cases h
    · intro h; exact k2 h.1 h.2
  refine ⟨iff1, iff2, ?_, ?_, ?_⟩
  · constructor
    · intro h
      refine ⟨?_, ?_⟩
      · intro h1; rw [k1 h1] at h; cases h
      · intro h2
        by_cases h1 : voucher.ValidFrom ≠ 0 ∧ env.now idx < voucher.ValidFrom
        · rw [k1 h1] at h; cases h
        · rw [k2 h1 h2] at h; cases h
    · intro h; exact k3 h.1 h.2
  · intro h hne
    have := iff1.mp hne
    rcases h with h | h
    · exact this.1 h
    · exact absurd this.2 (by rw [h]; exact lt_irrefl _)
  · intro h hne
    have := (iff2.mp hne).2
    rcases h with h | h
    · exact this.1 h
    · exact absurd this.2 (by rw [h]; exact lt_irrefl _)

/-- C5 witness: Scenario C, a voucher valid from instant 2000 checked at instant 1000. -/
theorem C5_validity_window_witness :
    (envA.parseUUID "vouch-3" = some 3 ∧
      findActiveVoucher (storeWith 1000 [voucherTomorrow]) 3 = some voucherTomorrow) ∧
    validateItem envA (storeWith 1000 [voucherTomorrow]) 0 { VoucherID := "vouch-3", Quantity := 1 } =
      .error (.error 400 "Voucher is not yet valid") :=
  ⟨⟨rfl, rfl⟩,
    (C5_validity_window envA (storeWith 1000 [voucherTomorrow]) 0
      { VoucherID := "vouch-3", Quantity := 1 } 3 voucherTomorrow rfl rfl).1.mpr (by decide)⟩

/-- C6 (as amended): when the request binds, the customer exists, every item before
position `pre.length` passes validation, and the item at that position has a well-formed
voucher id that no active voucher of the store carries (no voucher with that id, or only
inactive ones), `CreateRedemption` answers 400 "Voucher not found or inactive" and leaves
the store as it was, whatever the validity windows in the store and whatever the balance. -/
theorem C6_voucher_not_found (env : Env) (s : Store) (req : RedemptionRequest)
    (customerID : UUID) (c : Customer) (pre post : List RedemptionItem) (item : RedemptionItem)
    (voucherID : UUID)
    (hb : env.bindError req = none) (hp : env.parseUUID req.CustomerID = some customerID)
    (hc : findCustomer s customerID = some c) (hitems : req.Items = pre ++ item :: post)
    (hpre : ∀ k it, pre[k]? = some it → ∃ res, validateItem env s k it = .ok res)
    (hvid : env.parseUUID item.VoucherID = some voucherID)
    (hmiss : ∀ v ∈ s.vouchers, v.ID = voucherID → v.IsActive = false) :
    CreateRedemption env s req = (.error 400 "Voucher not found or inactive", s) := by
  have hnone : findActiveVoucher s voucherID = none := by
    unfold findActiveVoucher
    rw [List.find?_eq_none]
    intro v hv
    by_cases hid : v.ID = voucherID
    · simp [hid, hmiss v hv hid]
    · simp [hid]
  have hfail : validateItem env s (0 + pre.length) item =
      .error (.error 400 "Voucher not found or inactive") := by
    simp only [validateItem, hvid, hnone]
  apply CreateRedemption_of_prepare_error
  rw [prepare_eq hb hp hc, hitems,
    processItems_first_failure env s _ item post pre 0 0 [] (by simpa using hpre) hfail]

/-- C6 witness: balance 0, a valid first item, then an item whose voucher is inactive. -/
theorem C6_voucher_not_found_witness :
    (envA.bindError reqTwoThenFour = none ∧ envA.parseUUID reqTwoThenFour.CustomerID = some 1 ∧
      findCustomer (storeWith 0 [voucher300, voucherInactive]) 1 = some (customerWith 0) ∧
      reqTwoThenFour.Items =
        [{ VoucherID := "vouch-2", Quantity := 1 }] ++ { VoucherID := "vouch-4", Quantity := 1 } :: [] ∧
      (∀ k it, [({ VoucherID := "vouch-2", Quantity := 1 } : RedemptionItem)][k]? = some it →
        ∃ res, validateItem envA (storeWith 0 [voucher300, voucherInactive]) k it = .ok res) ∧
      envA.parseUUID "vouch-4" = some 4 ∧
      (∀ v ∈ (storeWith 0 [voucher300, voucherInactive]).vouchers, v.ID = 4 → v.IsActive = false)) ∧
    CreateRedemption envA (storeWith 0 [voucher300, voucherInactive]) reqTwoThenFour =
      (.error 400 "Voucher not found or inactive", storeWith 0 [voucher300, voucherInactive]) :=
  have hpre : ∀ k it, [({ VoucherID := "vouch-2", Quantity := 1 } : RedemptionItem)][k]? = some it →
      ∃ res, validateItem envA (storeWith 0 [voucher300, voucherInactive]) k it = .ok res := by
    intro k it hk
    cases k with
    | zero =>
      simp only [List.getElem?_cons_zero, Option.some.injEq] at hk
      subst hk
      exact ⟨(2, voucher300), rfl⟩
    | succ k => simp at hk
  ⟨⟨rfl, rfl, rfl, rfl, hpre, rfl, by decide⟩,
    C6_voucher_not_found envA (storeWith 0 [voucher300, voucherInactive]) reqTwoThenFour 1
      (customerWith 0) [{ VoucherID := "vouch-2", Quantity := 1 }] []
      { VoucherID := "vouch-4", Quantity := 1 } 4 rfl rfl rfl rfl hpre rfl (by decide)⟩

/-- C6 counterexample: the second item's voucher id 4 is not in the store, but the first
item's voucher has expired; the error returned is "Voucher has expired". -/
theorem C6_counterexample :
    envA.parseUUID "vouch-4" = some 4 ∧
      (∀ v ∈ (storeWith 1000 [voucherExpired]).vouchers, v.ID ≠ 4) ∧
      CreateRedemption envA (storeWith 1000 [voucherExpired]) reqThreeThenFour =
        (.error 400 "Voucher has expired", storeWith 1000 [voucherExpired]) ∧
      (CreateRedemption envA (storeWith 1000 [voucherExpired]) reqThreeThenFour).1 ≠
        .error 400 "Voucher not found or inactive" := by
  decide

/-- C7: validation is all-or-nothing.  If any item of the request, at any position, fails
the loop body's validation at its own iteration (invalid, missing or inactive voucher, not
yet valid, expired), `CreateRedemption` answers with a 400 error and the store is exactly
as before: no transaction row, no item row, same balances. -/
theorem C7_all_or_nothing (env : Env) (s : Store) (req : RedemptionRequest)
    (k : Nat) (item : RedemptionItem) (r : Response)
    (hk : req.Items[k]? = some item) (hfail : validateItem env s k item = .error r) :
    ∃ msg, CreateRedemption env s req = (.error 400 msg, s) := by
  cases hprep : prepare env s req with
  | error r' =>
    obtain ⟨msg, hmsg⟩ := prepare_error_status hprep
    exact ⟨msg, by rw [CreateRedemption_of_prepare_error hprep, hmsg]⟩
  | ok p =>
    obtain ⟨_, _, _, hl, _⟩ := prepare_ok hprep
    obtain ⟨msg, hmsg⟩ := processItems_error_of_failing env s req.Items 0 0 [] k item r hk
      (by simpa using hfail)
    rw [hmsg] at hl; cases hl

/-- C7 witness: Scenario D, a valid first item and an expired second item. -/
theorem C7_all_or_nothing_witness :
    (reqTwoThenThree.Items[1]? = some { VoucherID := "vouch-3", Quantity := 1 } ∧
      validateItem envA (storeWith 1000 [voucher300, voucherExpired]) 1
        { VoucherID := "vouch-3", Quantity := 1 } = .error (.error 400 "Voucher has expired")) ∧
    ∃ msg, CreateRedemption envA (storeWith 1000 [voucher300, voucherExpired]) reqTwoThenThree =
      (.error 400 msg, storeWith 1000 [voucher300, voucherExpired]) :=
  ⟨⟨rfl, rfl⟩,
    C7_all_or_nothing envA (storeWith 1000 [voucher300, voucherExpired]) reqTwoThenThree 1
      { VoucherID := "vouch-3", Quantity := 1 } (.error 400 "Voucher has expired") rfl rfl⟩

/-- C8: when the request binds and the customer exists, and the item at position
`pre.length` is the first one failing the loop body's validation, `CreateRedemption`
returns exactly that item's error and leaves the store unchanged; the error is one of the
four validation errors, never "Insufficient points", whatever the balance; and the loop
gives the same error whatever items follow the failing one. -/
theorem C8_first_failing_item_error (env : Env) (s : Store) (req : RedemptionRequest)
    (customerID : UUID) (c : Customer) (pre post : List RedemptionItem) (item : RedemptionItem)
    (r : Response)
    (hb : env.bindError req = none) (hp : env.parseUUID req.CustomerID = some customerID)
    (hc : findCustomer s customerID = some c) (hitems : req.Items = pre ++ item :: post)
    (hpre : ∀ k it, pre[k]? = some it → ∃ res, validateItem env s k it = .ok res)
    (hfail : validateItem env s pre.length item = .error r) :
    CreateRedemption env s req = (r, s) ∧
    (r = .error 400 "Invalid voucher ID" ∨ r = .error 400 "Voucher not found or inactive" ∨
      r = .error 400 "Voucher is not yet valid" ∨ r = .error 400 "Voucher has expired") ∧
    r ≠ .error 400 "Insufficient points" ∧
    ∀ post', processItems env s 0 0 [] (pre ++ item :: post') = .error r := by
  have hloop : ∀ post', processItems env s 0 0 [] (pre ++ item :: post') = .error r := by
    intro post'
    exact processItems_first_failure env s r item post' pre 0 0 [] (by simpa using hpre)
      (by simpa using hfail)
  refine ⟨?_, validateItem_error_status hfail, ?_, hloop⟩
  · apply CreateRedemption_of_prepare_error
    rw [prepare_eq hb hp hc, hitems, hloop post]
  · rcases validateItem_error_status hfail with h | h | h | h <;> rw [h] <;> decide

/-- C8 witness: balance 0; voucher 2 passes, voucher 3 has expired, voucher 4 is inactive. -/
theorem C8_first_failing_item_error_witness :
    (envA.bindError reqTwoThreeFour = none ∧ envA.parseUUID reqTwoThreeFour.CustomerID = some 1 ∧
      findCustomer (storeWith 0 [voucher300, voucherExpired, voucherInactive]) 1 =
        some (customerWith 0) ∧
      reqTwoThreeFour.Items =
        [{ VoucherID := "vouch-2", Quantity := 1 }] ++
          { VoucherID := "vouch-3", Quantity := 1 } :: [{ VoucherID := "vouch-4", Quantity := 1 }] ∧
      (∀ k it, [({ VoucherID := "vouch-2", Quantity := 1 } : RedemptionItem)][k]? = some it →
        ∃ res, validateItem envA (storeWith 0 [voucher300, voucherExpired, voucherInactive]) k it =
          .ok res) ∧
      validateItem envA (storeWith 0 [voucher300, voucherExpired, voucherInactive]) 1
        { VoucherID := "vouch-3", Quantity := 1 } = .error (.error 400 "Voucher has expired")) ∧
    CreateRedemption envA (storeWith 0 [voucher300, voucherExpired, voucherInactive]) reqTwoThreeFour =
      (.error 400 "Voucher has expired", storeWith 0 [voucher300, voucherExpired, voucherInactive]) :=
  have hpre : ∀ k it, [({ VoucherID := "vouch-2", Quantity := 1 } : RedemptionItem)][k]? = some it →
      ∃ res, validateItem envA (storeWith 0 [voucher300, voucherExpired, voucherInactive]) k it =
        .ok res := by
    intro k it hk
    cases k with
    | zero =>
      simp only [List.getElem?_cons_zero, Option.some.injEq] at hk
      subst hk
      exact ⟨(2, voucher300), rfl⟩
    | succ k => simp at hk
  ⟨⟨rfl, rfl, rfl, rfl, hpre, rfl⟩,
    (C8_first_failing_item_error envA (storeWith 0 [voucher300, voucherExpired, voucherInactive])
      reqTwoThreeFour 1 (customerWith 0) [{ VoucherID := "vouch-2", Quantity := 1 }]
      [{ VoucherID := "vouch-4", Quantity := 1 }] { VoucherID := "vouch-3", Quantity := 1 }
      (.error 400 "Voucher has expired") rfl rfl rfl rfl hpre rfl).1⟩

/-! ## Item rows and the unit of work -/

/-- C9 (as amended): on every successful redemption the item rows appended correspond to
the request items position by position; the row at position `k` references the voucher
the `k`-th request item resolved to, its `PointsPerUnit` is the `CostInPoint` that voucher
had in the store before the call, its `Quantity` is the requested quantity, and its
`TotalPoints` is `Quantity × PointsPerUnit` reduced to the 64-bit range, hence the exact
product whenever that product lies in the range of a Go `int`.  The row stores the numbers
themselves: replacing the vouchers table afterwards leaves the items table as it is. -/
theorem C9_item_snapshot (env : Env) (s s' : Store) (req : RedemptionRequest)
    (st : Nat) (msg : String) (h : CreateRedemption env s req = (.success st msg, s')) :
    ∃ its : List TransactionItem,
      s'.items = s.items ++ its ∧ its.length = req.Items.length ∧
      (∀ (k : Nat) (item : RedemptionItem), req.Items[k]? = some item →
        ∃ (voucherID : UUID) (voucher : Voucher) (it : TransactionItem),
          env.parseUUID item.VoucherID = some voucherID ∧
          findActiveVoucher s voucherID = some voucher ∧
          its[k]? = some it ∧ it.VoucherID = voucherID ∧
          it.PointsPerUnit = voucher.CostInPoint ∧ it.Quantity = item.Quantity ∧
          it.TotalPoints = wrap64 (it.Quantity * it.PointsPerUnit) ∧
          (inInt64 (it.Quantity * it.PointsPerUnit) →
            it.TotalPoints = it.Quantity * it.PointsPerUnit)) ∧
      ∀ vouchers' : List Voucher, ({ s' with vouchers := vouchers' } : Store).items = s'.items := by
  obtain ⟨p, hp, hs, _⟩ := CreateRedemption_success h
  obtain ⟨_, _, _, hl, _⟩ := prepare_ok hp
  obtain ⟨news, hacc, hlen, _, _, hrows⟩ := processItems_ok env s _ _ _ _ _ _ hl
  have hnews : p.transactionItems = news := by simpa using hacc
  refine ⟨stampItems env (transactionRow env p).ID 0 p.transactionItems, ?_, ?_, ?_, ?_⟩
  · rw [hs]; rfl
  · rw [stampItems_length, hnews, hlen]
  · intro k item hk
    obtain ⟨vid, v, hval, hrow⟩ := hrows k item hk
    obtain ⟨hparse, hfind, _⟩ := validateItem_ok (by simpa using hval)
    refine ⟨vid, v,
      { itemRow vid v item with
        TransactionID := (transactionRow env p).ID,
        ID := beforeCreate (itemRow vid v item).ID (env.newUUID (0 + k + 1)) },
      hparse, hfind, ?_, rfl, rfl, rfl, ?_, ?_⟩
    · rw [stampItems_getElem?, hnews, hrow]; rfl
    · show wrap64 (v.CostInPoint * item.Quantity) = wrap64 (item.Quantity * v.CostInPoint)
      rw [Int.mul_comm]
    · intro hr
      show wrap64 (v.CostInPoint * item.Quantity) = item.Quantity * v.CostInPoint
      rw [Int.mul_comm]
      exact wrap64_of_inInt64 hr
  · intro _; rfl

/-- C9 witness: Scenario A, one row of quantity 2 at 300 points per unit, total 600. -/
theorem C9_item_snapshot_witness :
    CreateRedemption envA (storeWith 1000 [voucher300]) reqTwoUnits =
        (.success 201 "Redemption successful", storeAfterA) ∧
      ∃ its : List TransactionItem,
        storeAfterA.items = (storeWith 1000 [voucher300]).items ++ its ∧
        its.length = reqTwoUnits.Items.length ∧
        (∀ (k : Nat) (item : RedemptionItem), reqTwoUnits.Items[k]? = some item →
          ∃ (voucherID : UUID) (voucher : Voucher) (it : TransactionItem),
            envA.parseUUID item.VoucherID = some voucherID ∧
            findActiveVoucher (storeWith 1000 [voucher300]) voucherID = some voucher ∧
            its[k]? = some it ∧ it.VoucherID = voucherID ∧
            it.PointsPerUnit = voucher.CostInPoint ∧ it.Quantity = item.Quantity ∧
            it.TotalPoints = wrap64 (it.Quantity * it.PointsPerUnit) ∧
            (inInt64 (it.Quantity * it.PointsPerUnit) →
              it.TotalPoints = it.Quantity * it.PointsPerUnit)) ∧
        ∀ vouchers' : List Voucher,
          ({ storeAfterA with vouchers := vouchers' } : Store).items = storeAfterA.items :=
  ⟨by decide, C9_item_snapshot envA (storeWith 1000 [voucher300]) storeAfterA reqTwoUnits 201
    "Redemption successful" (by decide)⟩

/-- C9 counterexample: balance 0 and two units of a voucher costing 2^62.  The redemption
succeeds and the one item row has quantity 2, 2^62 points per unit and `TotalPoints`
-2^63, which is not 2 × 2^62. -/
theorem C9_counterexample :
    (CreateRedemption envA (storeWith 0 [voucherBig]) reqTwoUnits).1 =
        .success 201 "Redemption successful" ∧
      (CreateRedemption envA (storeWith 0 [voucherBig]) reqTwoUnits).2.items =
        [{ ID := 101, TransactionID := 100, VoucherID := 2, Quantity := 2,
           PointsPerUnit := 4611686018427387904, TotalPoints := -9223372036854775808 }] ∧
      (-9223372036854775808 : Int) ≠ 2 * 4611686018427387904 := by
  decide

/-- C10: once every check has passed, if the storage layer refuses any write of the unit
of work (the transaction row, one of the item rows, the points update, or the commit),
`CreateRedemption` answers 500 with the message of the failed step and the store is exactly
as before the call; and whatever makes the unit of work fail, a primary-key collision
included, the answer is such a 500 and the store is exactly as before the call. -/
theorem C10_failed_write_rolls_back (env : Env) (s : Store) (req : RedemptionRequest) (p : Plan)
    (hp : prepare env s req = .ok p) :
    (SomeWriteFails env p.transactionItems.length →
      ∃ msg, msg ∈ ["Failed to create transaction", "Failed to create transaction items",
          "Failed to update customer points", "Failed to commit transaction"] ∧
        CreateRedemption env s req = (.error 500 msg, s)) ∧
    (∀ st msg, (CreateRedemption env s req).1 = .error st msg →
      st = 500 ∧
      msg ∈ ["Failed to create transaction", "Failed to create transaction items",
          "Failed to update customer points", "Failed to commit transaction"] ∧
      (CreateRedemption env s req).2 = s) := by
  rw [CreateRedemption_of_prepare_ok hp]
  rcases commit_cases env s p with ⟨hok, hnf⟩ | ⟨m, hm, hcm⟩
  · refine ⟨fun hf => absurd hf hnf, ?_⟩
    intro st msg h
    rw [hok] at h; cases h
  · refine ⟨fun _ => ⟨m, hm, hcm⟩, ?_⟩
    intro st msg h
    rw [hcm] at h ⊢
    injection h with h1 h2
    subst h1; subst h2
    exact ⟨rfl, hm, rfl⟩

/-- C10 witness: Scenario A with a storage layer refusing the first item row; the
transaction row written just before is rolled back with it. -/
theorem C10_failed_write_rolls_back_witness :
    (prepare envItemFault (storeWith 1000 [voucher300]) reqTwoUnits =
        .ok { customerID := 1, customer := customerWith 1000, totalPoints := 600,
              transactionItems := [itemRow 2 voucher300 { VoucherID := "vouch-2", Quantity := 2 }] } ∧
      SomeWriteFails envItemFault 1) ∧
    CreateRedemption envItemFault (storeWith 1000 [voucher300]) reqTwoUnits =
      (.error 500 "Failed to create transaction items", storeWith 1000 [voucher300]) ∧
    ∃ msg, msg ∈ ["Failed to create transaction", "Failed to create transaction items",
        "Failed to update customer points", "Failed to commit transaction"] ∧
      CreateRedemption envItemFault (storeWith 1000 [voucher300]) reqTwoUnits =
        (.error 500 msg, storeWith 1000 [voucher300]) :=
  ⟨⟨rfl, by decide⟩, by decide,
    (C10_failed_write_rolls_back envItemFault (storeWith 1000 [voucher300]) reqTwoUnits
      { customerID := 1, customer := customerWith 1000, totalPoints := 600,
        transactionItems := [itemRow 2 voucher300 { VoucherID := "vouch-2", Quantity := 2 }] }
      rfl).1 (by decide)⟩

/-! ## Overflow, unknown customers, the balance invariant -/

theorem processItems_exactTotal (env : Env) (s : Store) :
    ∀ (items : List RedemptionItem) (idx : Nat) (total : Int) (acc : List TransactionItem)
      (total' : Int) (acc' : List TransactionItem),
      processItems env s idx total acc items = .ok (total', acc') →
      wrap64 total' = wrap64 (total + exactTotal env s idx items) := by
  intro items
  induction items with
  | nil =>
    intro idx total acc total' acc' h
    simp only [processItems] at h
    injection h with h
    injection h with h1 _
    subst h1
    simp [exactTotal]
  | cons item rest ih =>
    intro idx total acc total' acc' h
    simp only [processItems] at h
    split at h
    · cases h
    · rename_i voucherID voucher hv
      rw [ih _ _ _ _ _ h, wrap64_add_left]
      simp only [exactTotal, hv, wrap64]
      omega

theorem processItems_error_messages (env : Env) (s : Store) :
    ∀ (items : List RedemptionItem) (idx : Nat) (total : Int) (acc : List TransactionItem)
      (r : Response), processItems env s idx total acc items = .error r →
      r = .error 400 "Invalid voucher ID" ∨ r = .error 400 "Voucher not found or inactive" ∨
        r = .error 400 "Voucher is not yet valid" ∨ r = .error 400 "Voucher has expired" := by
  intro items
  induction items with
  | nil => intro idx total acc r h; simp [processItems] at h
  | cons head rest ih =>
    intro idx total acc r h
    simp only [processItems] at h
    split at h
    · rename_i r' hr'
      injection h with h
      subst h
      exact validateItem_error_status hr'
    · exact ih _ _ _ _ h

theorem prepared_response_cases {env : Env} {s : Store} {req : RedemptionRequest} {p : Plan}
    (hp : prepare env s req = .ok p) :
    (CreateRedemption env s req).1 = .success 201 "Redemption successful" ∨
      ∃ msg, (CreateRedemption env s req).1 = .error 500 msg := by
  rw [CreateRedemption_of_prepare_ok hp]
  rcases commit_cases env s p with ⟨h, _⟩ | ⟨m, _, h⟩
  · left; rw [h]
  · right; exact ⟨m, by rw [h]⟩

/-- C11 (as amended): `CreateRedemption` has no overflow guard.  For a bound request whose
customer exists and whose items all pass validation, the computed total is the exact sum
of cost × quantity reduced to the 64-bit range (hence the exact sum whenever that lies in
the range of a Go `int`), the only 400 answer left is "Insufficient points", and it is
given exactly when the balance is below that reduced total. -/
theorem C11_no_overflow_guard (env : Env) (s : Store) (req : RedemptionRequest)
    (customerID : UUID) (c : Customer) (totalPoints : Int) (transactionItems : List TransactionItem)
    (hb : env.bindError req = none) (hp : env.parseUUID req.CustomerID = some customerID)
    (hc : findCustomer s customerID = some c)
    (hl : processItems env s 0 0 [] req.Items = .ok (totalPoints, transactionItems)) :
    totalPoints = wrap64 (exactTotal env s 0 req.Items) ∧
    (inInt64 (exactTotal env s 0 req.Items) → totalPoints = exactTotal env s 0 req.Items) ∧
    ((CreateRedemption env s req).1 = .error 400 "Insufficient points" ↔
      c.Points < wrap64 (exactTotal env s 0 req.Items)) ∧
    (∀ msg, (CreateRedemption env s req).1 = .error 400 msg → msg = "Insufficient points") := by
  obtain ⟨_, _, _, _, hin, _⟩ := processItems_ok env s _ _ _ _ _ _ hl
  have hrange : inInt64 totalPoints := hin (by unfold inInt64; omega)
  have htot : totalPoints = wrap64 (exactTotal env s 0 req.Items) := by
    rw [← wrap64_of_inInt64 hrange, processItems_exactTotal env s _ _ _ _ _ _ hl, Int.zero_add]
  have hprep := prepare_eq hb hp hc
  rw [hl] at hprep
  dsimp only at hprep
  have hcases : (c.Points < totalPoints ∧
        (CreateRedemption env s req).1 = .error 400 "Insufficient points") ∨
      (¬ c.Points < totalPoints ∧
        ((CreateRedemption env s req).1 = .success 201 "Redemption successful" ∨
          ∃ msg, (CreateRedemption env s req).1 = .error 500 msg)) := by
    by_cases hlt : c.Points < totalPoints
    · left
      rw [if_pos hlt] at hprep
      exact ⟨hlt, by rw [CreateRedemption_of_prepare_error hprep]⟩
    · right
      rw [if_neg hlt] at hprep
      exact ⟨hlt, prepared_response_cases hprep⟩
  refine ⟨htot, ?_, ?_, ?_⟩
  · intro hr; rw [htot, wrap64_of_inInt64 hr]
  · rw [← htot]
    constructor
    · intro h
      rcases hcases with ⟨hlt, _⟩ | ⟨_, h2 | ⟨m, h2⟩⟩
      · exact hlt
      · rw [h2] at h; cases h
      · rw [h2] at h; cases h
    · intro hlt
      rcases hcases with ⟨_, h1⟩ | ⟨hge, _⟩
      · exact h1
      · exact absurd hlt hge
  · intro msg h
    rcases hcases with ⟨_, h1⟩ | ⟨_, h2 | ⟨m, h2⟩⟩
    · rw [h1] at h
      injection h with _ h
      exact h.symm
    · rw [h2] at h; cases h
    · rw [h2] at h; cases h

/-- C11 witness: Scenario A, exact total 2 × 300 = 600, inside the range. -/
theorem C11_no_overflow_guard_witness :
    (envA.bindError reqTwoUnits = none ∧ envA.parseUUID reqTwoUnits.CustomerID = some 1 ∧
      findCustomer (storeWith 1000 [voucher300]) 1 = some (customerWith 1000) ∧
      processItems envA (storeWith 1000 [voucher300]) 0 0 [] reqTwoUnits.Items =
        .ok (600, [itemRow 2 voucher300 { VoucherID := "vouch-2", Quantity := 2 }])) ∧
    (600 : Int) = wrap64 (exactTotal envA (storeWith 1000 [voucher300]) 0 reqTwoUnits.Items) ∧
    (inInt64 (exactTotal envA (storeWith 1000 [voucher300]) 0 reqTwoUnits.Items) →
      (600 : Int) = exactTotal envA (storeWith 1000 [voucher300]) 0 reqTwoUnits.Items) :=
  ⟨⟨rfl, rfl, rfl, rfl⟩,
    (C11_no_overflow_guard envA (storeWith 1000 [voucher300]) reqTwoUnits 1 (customerWith 1000)
      600 [itemRow 2 voucher300 { VoucherID := "vouch-2", Quantity := 2 }] rfl rfl rfl rfl).1,
    (C11_no_overflow_guard envA (storeWith 1000 [voucher300]) reqTwoUnits 1 (customerWith 1000)
      600 [itemRow 2 voucher300 { VoucherID := "vouch-2", Quantity := 2 }] rfl rfl rfl rfl).2.1⟩

/-- C11 counterexample: two units of a voucher costing 2^62 against a balance of 0.  The
exact total 2^63 is outside the range of a Go `int`, yet the request is not rejected: the
answer is 201 and the transaction row carries the wrapped total -2^63. -/
theorem C11_counterexample :
    exactTotal envA (storeWith 0 [voucherBig]) 0 reqTwoUnits.Items = 9223372036854775808 ∧
      ¬ inInt64 (exactTotal envA (storeWith 0 [voucherBig]) 0 reqTwoUnits.Items) ∧
      (CreateRedemption envA (storeWith 0 [voucherBig]) reqTwoUnits).1 =
        .success 201 "Redemption successful" ∧
      (CreateRedemption envA (storeWith 0 [voucherBig]) reqTwoUnits).2.transactions =
        [{ ID := 100, CustomerID := 1, TotalPoints := -9223372036854775808, Status := "completed" }] := by
  decide

/-- C12 (as amended): for a bound request with a well-formed customer id, the answer is
400 "Customer not found" exactly when no customer row carries that id, and then the store is
unchanged; the customer's active flag plays no part. -/
theorem C12_customer_not_found (env : Env) (s : Store) (req : RedemptionRequest)
    (customerID : UUID) (hb : env.bindError req = none)
    (hp : env.parseUUID req.CustomerID = some customerID) :
    ((CreateRedemption env s req).1 = .error 400 "Customer not found" ↔
      ∀ c ∈ s.customers, c.ID ≠ customerID) ∧
    ((∀ c ∈ s.customers, c.ID ≠ customerID) →
      CreateRedemption env s req = (.error 400 "Customer not found", s)) := by
  have habsent : (∀ c ∈ s.customers, c.ID ≠ customerID) →
      CreateRedemption env s req = (.error 400 "Customer not found", s) := by
    intro hno
    have hnone : findCustomer s customerID = none := by
      unfold findCustomer
      rw [List.find?_eq_none]
      intro c hc
      simpa using hno c hc
    apply CreateRedemption_of_prepare_error
    simp only [prepare, hb, hp, hnone]
  refine ⟨⟨?_, fun h => by rw [habsent h]⟩, habsent⟩
  intro h
  cases hf : findCustomer s customerID with
  | none =>
    unfold findCustomer at hf
    rw [List.find?_eq_none] at hf
    intro c hc
    simpa using hf c hc
  | some c =>
    exfalso
    have hprep := prepare_eq hb hp hf
    cases hl : processItems env s 0 0 [] req.Items with
    | error r =>
      rw [hl] at hprep
      dsimp only at hprep
      rw [CreateRedemption_of_prepare_error hprep] at h
      dsimp only at h
      subst h
      have := processItems_error_messages env s _ _ _ _ _ hl
      rcases this with h1 | h1 | h1 | h1 <;> · injection h1 with _ h1; exact absurd h1 (by decide)
    | ok res =>
      obtain ⟨total, items⟩ := res
      rw [hl] at hprep
      dsimp only at hprep
      by_cases hlt : c.Points < total
      · rw [if_pos hlt] at hprep
        rw [CreateRedemption_of_prepare_error hprep] at h
        injection h with _ h
        exact absurd h (by decide)
      · rw [if_neg hlt] at hprep
        rcases prepared_response_cases hprep with h2 | ⟨m, h2⟩
        · rw [h2] at h; cases h
        · rw [h2] at h
          injection h with h _
          exact absurd h (by decide)

/-- C12 witness: a redemption against the empty store. -/
theorem C12_customer_not_found_witness :
    (envA.bindError reqTwoUnits = none ∧ envA.parseUUID reqTwoUnits.CustomerID = some 1 ∧
      ∀ c ∈ emptyStore.customers, c.ID ≠ 1) ∧
    CreateRedemption envA emptyStore reqTwoUnits = (.error 400 "Customer not found", emptyStore) :=
  ⟨⟨rfl, rfl, by decide⟩,
    (C12_customer_not_found envA emptyStore reqTwoUnits 1 rfl rfl).2 (by decide)⟩

/-- C12 counterexample: the only customer row with the requested id has its active flag
false; the redemption succeeds and the balance goes from 1000 to 400. -/
theorem C12_counterexample :
    findCustomer storeInactiveCustomer 1 = some { customerWith 1000 with IsActive := false } ∧
      (CreateRedemption envA storeInactiveCustomer reqTwoUnits).1 =
        .success 201 "Redemption successful" ∧
      findCustomer (CreateRedemption envA storeInactiveCustomer reqTwoUnits).2 1 =
        some { customerWith 400 with IsActive := false } ∧
      (CreateRedemption envA storeInactiveCustomer reqTwoUnits).2.transactions =
        [{ ID := 100, CustomerID := 1, TotalPoints := 600, Status := "completed" }] := by
  decide

/-- C13 (the code at the failing input): from the empty store, creating a brand, a voucher
of it costing 2^62 points and a customer with balance 0, then redeeming two units of the
voucher, every request is accepted and the customer's balance ends at -2^63. -/
theorem C13_overflow_trace_negative_balance :
    runOps (overflowTrace.take 3) emptyStore =
        { brands := [brandAcme], vouchers := [voucherBig], customers := [customerWith 0],
          transactions := [], items := [] } ∧
      (CreateRedemption envA (runOps (overflowTrace.take 3) emptyStore) reqTwoUnits).1 =
        .success 201 "Redemption successful" ∧
      (runOps overflowTrace emptyStore).customers = [customerWith (-9223372036854775808)] ∧
      (customerWith (-9223372036854775808)).Points < 0 := by
  decide


/-! ## Repeated and interleaved redemptions -/

theorem commit_success_fresh {env : Env} {s s' : Store} {p : Plan} {st : Nat} {msg : String}
    (h : commit env s p = (.success st msg, s')) :
    ∀ r ∈ s.transactions, r.ID ≠ (transactionRow env p).ID := by
  have hrow : (⟨beforeCreate uuidNil (env.newUUID 0), p.customerID, p.totalPoints, "completed"⟩ :
      Transaction) = transactionRow env p := rfl
  simp only [commit, hrow] at h
  cases h1 : txCreateTransaction env.faults s (transactionRow env p) with
  | none => rw [h1] at h; cases h
  | some tx1 =>
    unfold txCreateTransaction at h1
    split at h1
    · cases h1
    · rename_i hc
      simp only [Bool.or_eq_true, not_or, Bool.not_eq_true] at hc
      have hany := hc.2
      rw [List.any_eq_false] at hany
      intro r hr
      simpa using hany r hr

theorem findActiveVoucher_congr {s1 s2 : Store} (h : s2.vouchers = s1.vouchers) (id : UUID) :
    findActiveVoucher s2 id = findActiveVoucher s1 id := by
  unfold findActiveVoucher; rw [h]

theorem processItems_agree {env1 env2 : Env} {s1 s2 : Store} {items : List RedemptionItem}
    {t1 t2 : Int} {l1 l2 : List TransactionItem}
    (hparse : env2.parseUUID = env1.parseUUID) (hv : s2.vouchers = s1.vouchers)
    (h1 : processItems env1 s1 0 0 [] items = .ok (t1, l1))
    (h2 : processItems env2 s2 0 0 [] items = .ok (t2, l2)) : t1 = t2 ∧ l1 = l2 := by
  obtain ⟨n1, ha1, hlen1, hsum1, hin1, hrows1⟩ := processItems_ok env1 s1 _ _ _ _ _ _ h1
  obtain ⟨n2, ha2, hlen2, hsum2, hin2, hrows2⟩ := processItems_ok env2 s2 _ _ _ _ _ _ h2
  have e1 : l1 = n1 := by simpa using ha1
  have e2 : l2 = n2 := by simpa using ha2
  have hl : n1 = n2 := by
    apply List.ext_getElem?
    intro k
    by_cases hk : k < items.length
    · obtain ⟨v1, w1, hval1, hr1⟩ := hrows1 k items[k] (List.getElem?_eq_getElem hk)
      obtain ⟨v2, w2, hval2, hr2⟩ := hrows2 k items[k] (List.getElem?_eq_getElem hk)
      obtain ⟨hp1, hf1, _⟩ := validateItem_ok hval1
      obtain ⟨hp2, hf2, _⟩ := validateItem_ok hval2
      rw [hparse, hp1] at hp2
      injection hp2 with hp2
      subst hp2
      rw [findActiveVoucher_congr hv, hf1] at hf2
      injection hf2 with hf2
      subst hf2
      rw [hr1, hr2]
    · rw [List.getElem?_eq_none (by omega), List.getElem?_eq_none (by omega)]
  have hr1 : inInt64 t1 := hin1 (by unfold inInt64; omega)
  have hr2 : inInt64 t2 := hin2 (by unfold inInt64; omega)
  refine ⟨?_, by rw [e1, e2, hl]⟩
  rw [← wrap64_of_inInt64 hr1, ← wrap64_of_inInt64 hr2, hsum1, hsum2, hl]

/-- C14: `CreateRedemption` is not idempotent.  When the same request succeeds twice in
a row (same identifier parsing, any clock and any new ids), the two calls append two
transaction rows with distinct ids and the same total, each with its own item rows, one
per request item; and for a balance in the range of a Go `int` and a total T > 0 the
balance ends at the initial balance minus 2T. -/
theorem C14_not_idempotent (env1 env2 : Env) (s s1 s2 : Store) (req : RedemptionRequest)
    (st1 st2 : Nat) (m1 m2 : String) (hparse : env2.parseUUID = env1.parseUUID)
    (h1 : CreateRedemption env1 s req = (.success st1 m1, s1))
    (h2 : CreateRedemption env2 s1 req = (.success st2 m2, s2)) :
    ∃ (customerID : UUID) (c : Customer) (t1 t2 : Transaction) (its1 its2 : List TransactionItem),
      env1.parseUUID req.CustomerID = some customerID ∧ findCustomer s customerID = some c ∧
      s2.transactions = s.transactions ++ [t1, t2] ∧ t1.ID ≠ t2.ID ∧
      t1.TotalPoints = t2.TotalPoints ∧
      s2.items = s.items ++ its1 ++ its2 ∧
      its1.length = req.Items.length ∧ its2.length = req.Items.length ∧
      (∀ it ∈ its1, it.TransactionID = t1.ID) ∧ (∀ it ∈ its2, it.TransactionID = t2.ID) ∧
      (inInt64 c.Points → 0 < t1.TotalPoints →
        findCustomer s2 customerID = some { c with Points := c.Points - 2 * t1.TotalPoints }) := by
  obtain ⟨p1, hp1, hs1, _⟩ := CreateRedemption_success h1
  obtain ⟨p2, hp2, hs2, _⟩ := CreateRedemption_success h2
  obtain ⟨_, hpa1, hf1, hl1, hge1⟩ := prepare_ok hp1
  obtain ⟨_, hpa2, hf2, hl2, hge2⟩ := prepare_ok hp2
  have hcid : p2.customerID = p1.customerID := by
    rw [hparse, hpa1] at hpa2
    injection hpa2 with hpa2
    exact hpa2.symm
  have hcust : p2.customer =
      { p1.customer with Points := wrap64 (p1.customer.Points - p1.totalPoints) } := by
    rw [hcid, hs1, findCustomer_committed_self hf1] at hf2
    injection hf2 with hf2
    exact hf2.symm
  have hvouch : s1.vouchers = s.vouchers := by rw [hs1]; rfl
  obtain ⟨htot, hitems⟩ := processItems_agree hparse hvouch hl1 hl2
  have hcommit2 : commit env2 s1 p2 = (.success st2 m2, s2) := by
    rw [← CreateRedemption_of_prepare_ok hp2]; exact h2
  have hfresh := commit_success_fresh hcommit2
  obtain ⟨n1, ha1, hlen1, _, _, _⟩ := processItems_ok env1 s _ _ _ _ _ _ hl1
  have hlen : p1.transactionItems.length = req.Items.length := by
    have : p1.transactionItems = n1 := by simpa using ha1
    rw [this, hlen1]
  refine ⟨p1.customerID, p1.customer, transactionRow env1 p1, transactionRow env2 p2,
    stampItems env1 (transactionRow env1 p1).ID 0 p1.transactionItems,
    stampItems env2 (transactionRow env2 p2).ID 0 p2.transactionItems,
    hpa1, hf1, ?_, ?_, ?_, ?_, ?_, ?_, ?_, ?_, ?_⟩
  · rw [hs2, hs1]
    simp [committed]
  · apply hfresh
    rw [hs1]
    simp [committed]
  · show p1.totalPoints = p2.totalPoints
    exact htot
  · rw [hs2, hs1]
    simp [committed]
  · rw [stampItems_length, hlen]
  · rw [stampItems_length, ← hitems, hlen]
  · exact stampItems_transactionID env1 _ _ _
  · exact stampItems_transactionID env2 _ _ _
  · intro hr hpos
    have hpos1 : 0 < p1.totalPoints := hpos
    have hf2' : findCustomer s1 p2.customerID = some p2.customer := hf2
    rw [hs2, ← hcid, findCustomer_committed_self hf2', hcust, ← htot]
    have hx : wrap64 (p1.customer.Points - p1.totalPoints) = p1.customer.Points - p1.totalPoints := by
      apply wrap64_of_inInt64
      unfold inInt64 at hr ⊢
      omega
    rw [hcust, hx, ← htot] at hge2
    dsimp only at hge2
    have hy : wrap64 (p1.customer.Points - p1.totalPoints - p1.totalPoints) =
        p1.customer.Points - 2 * p1.totalPoints := by
      rw [wrap64_of_inInt64]
      · ring
      · unfold inInt64 at hr ⊢
        omega
    dsimp only
    rw [hx, hy]
    rfl

/-- C14 witness: Scenario A submitted twice against a balance of 2000. -/
theorem C14_not_idempotent_witness :
    (envB.parseUUID = envA.parseUUID ∧
      (CreateRedemption envA (storeWith 2000 [voucher300]) reqTwoUnits).1 =
        .success 201 "Redemption successful" ∧
      (CreateRedemption envB (CreateRedemption envA (storeWith 2000 [voucher300]) reqTwoUnits).2
        reqTwoUnits).1 = .success 201 "Redemption successful") ∧
    (CreateRedemption envB (CreateRedemption envA (storeWith 2000 [voucher300]) reqTwoUnits).2
        reqTwoUnits).2 =
      { brands := [], vouchers := [voucher300], customers := [customerWith 800],
        transactions := [{ ID := 100, CustomerID := 1, TotalPoints := 600, Status := "completed" },
                         { ID := 200, CustomerID := 1, TotalPoints := 600, Status := "completed" }],
        items := [{ ID := 101, TransactionID := 100, VoucherID := 2, Quantity := 2,
                    PointsPerUnit := 300, TotalPoints := 600 },
                  { ID := 201, TransactionID := 200, VoucherID := 2, Quantity := 2,
                    PointsPerUnit := 300, TotalPoints := 600 }] } ∧
    ∃ (customerID : UUID) (c : Customer) (t1 t2 : Transaction) (its1 its2 : List TransactionItem),
      envA.parseUUID reqTwoUnits.CustomerID = some customerID ∧
      findCustomer (storeWith 2000 [voucher300]) customerID = some c ∧
      (CreateRedemption envB (CreateRedemption envA (storeWith 2000 [voucher300]) reqTwoUnits).2
        reqTwoUnits).2.transactions = (storeWith 2000 [voucher300]).transactions ++ [t1, t2] ∧
      t1.ID ≠ t2.ID ∧ t1.TotalPoints = t2.TotalPoints ∧
      (CreateRedemption envB (CreateRedemption envA (storeWith 2000 [voucher300]) reqTwoUnits).2
        reqTwoUnits).2.items = (storeWith 2000 [voucher300]).items ++ its1 ++ its2 ∧
      its1.length = reqTwoUnits.Items.length ∧ its2.length = reqTwoUnits.Items.length ∧
      (∀ it ∈ its1, it.TransactionID = t1.ID) ∧ (∀ it ∈ its2, it.TransactionID = t2.ID) ∧
      (inInt64 c.Points → 0 < t1.TotalPoints →
        findCustomer
            (CreateRedemption envB
              (CreateRedemption envA (storeWith 2000 [voucher300]) reqTwoUnits).2 reqTwoUnits).2
            customerID = some { c with Points := c.Points - 2 * t1.TotalPoints }) :=
  ⟨⟨rfl, by decide, by decide⟩, by decide,
    C14_not_idempotent envA envB (storeWith 2000 [voucher300])
      (CreateRedemption envA (storeWith 2000 [voucher300]) reqTwoUnits).2
      (CreateRedemption envB (CreateRedemption envA (storeWith 2000 [voucher300]) reqTwoUnits).2
        reqTwoUnits).2 reqTwoUnits 201 201 "Redemption successful" "Redemption successful" rfl
      (by decide) (by decide)⟩

/-- C15 (the code at the failing schedule): balance 1000, one request of two units
(600 points) and one of three units (900 points) of a voucher costing 300.  Served one
after the other, the first succeeds and the second is refused for insufficient points.
Scheduled so that both read the balance before either writes, both succeed: two
transactions of 600 and 900 points are recorded and the balance ends at 100. -/
theorem C15_reads_then_writes_both_succeed :
    (CreateRedemption envA (storeWith 1000 [voucher300]) reqTwoUnits).1 =
        .success 201 "Redemption successful" ∧
      (CreateRedemption envB (storeWith 1000 [voucher300]) reqThreeUnits).1 =
        .success 201 "Redemption successful" ∧
      (CreateRedemption envB (CreateRedemption envA (storeWith 1000 [voucher300]) reqTwoUnits).2
        reqThreeUnits).1 = .error 400 "Insufficient points" ∧
      (readsThenWrites envA envB (storeWith 1000 [voucher300]) reqTwoUnits reqThreeUnits).1 =
        (.success 201 "Redemption successful", .success 201 "Redemption successful") ∧
      (readsThenWrites envA envB (storeWith 1000 [voucher300]) reqTwoUnits reqThreeUnits).2.customers =
        [customerWith 100] ∧
      (readsThenWrites envA envB (storeWith 1000 [voucher300]) reqTwoUnits
        reqThreeUnits).2.transactions =
        [{ ID := 100, CustomerID := 1, TotalPoints := 600, Status := "completed" },
         { ID := 200, CustomerID := 1, TotalPoints := 900, Status := "completed" }] := by
  decide


/-! ## Voucher and brand creation -/

theorem CreateVoucher_success {env : CreateEnv CreateVoucherRequest} {s s' : Store}
    {req : CreateVoucherRequest} {st : Nat} {msg : String}
    (h : CreateVoucher env s req = (.success st msg, s')) :
    ∃ brandID, ¬ req.CostInPoint ≤ 0 ∧ dateRangeRejected req.ValidFrom req.ValidTo = false ∧
      s'.vouchers = s.vouchers ++
        [{ ID := beforeCreate uuidNil env.newUUID, BrandID := brandID, Name := req.Name,
           Description := req.Description, CostInPoint := req.CostInPoint,
           ValidFrom := req.ValidFrom, ValidTo := req.ValidTo, IsActive := true }] := by
  unfold CreateVoucher at h
  cases hb : env.bindError req with
  | some m => rw [hb] at h; cases h
  | none =>
    rw [hb] at h
    dsimp only at h
    cases hp : env.parseUUID req.BrandID with
    | none => rw [hp] at h; cases h
    | some brandID =>
      rw [hp] at h
      dsimp only at h
      cases hf : s.brands.find? (fun b => b.ID == brandID) with
      | none => rw [hf] at h; cases h
      | some b =>
        rw [hf] at h
        dsimp only at h
        by_cases hcost : req.CostInPoint ≤ 0
        · rw [if_pos hcost] at h; cases h
        · rw [if_neg hcost] at h
          by_cases hd : dateRangeRejected req.ValidFrom req.ValidTo = true
          · rw [if_pos hd] at h; cases h
          · rw [if_neg hd] at h
            split at h
            · cases h
            · injection h with _ h
              refine ⟨brandID, hcost, by simpa using hd, ?_⟩
              rw [← h]

theorem CreateVoucher_rejects {env : CreateEnv CreateVoucherRequest} {s : Store}
    {req : CreateVoucherRequest}
    (h : req.CostInPoint ≤ 0 ∨ dateRangeRejected req.ValidFrom req.ValidTo = true) :
    ∃ msg, CreateVoucher env s req = (.error 400 msg, s) := by
  unfold CreateVoucher
  cases hb : env.bindError req with
  | some m => exact ⟨m, rfl⟩
  | none =>
    dsimp only
    cases hp : env.parseUUID req.BrandID with
    | none => exact ⟨_, rfl⟩
    | some brandID =>
      dsimp only
      cases hf : s.brands.find? (fun b => b.ID == brandID) with
      | none => exact ⟨_, rfl⟩
      | some b =>
        dsimp only
        by_cases hcost : req.CostInPoint ≤ 0
        · rw [if_pos hcost]; exact ⟨_, rfl⟩
        · rw [if_neg hcost]
          rcases h with h | h
          · exact absurd h hcost
          · rw [if_pos h]; exact ⟨_, rfl⟩

theorem CreateVoucher_accepts {env : CreateEnv CreateVoucherRequest} {s : Store}
    {req : CreateVoucherRequest} {brandID : UUID} {b : Brand}
    (hb : env.bindError req = none) (hp : env.parseUUID req.BrandID = some brandID)
    (hf : s.brands.find? (fun b => b.ID == brandID) = some b) (hcost : 0 < req.CostInPoint)
    (hd : dateRangeRejected req.ValidFrom req.ValidTo = false)
    (hc : env.createFails = false) (hfresh : ∀ v ∈ s.vouchers, v.ID ≠ env.newUUID) :
    CreateVoucher env s req =
      (.success 201 "Voucher created successfully",
        { s with vouchers := s.vouchers ++
            [{ ID := env.newUUID, BrandID := brandID, Name := req.Name,
               Description := req.Description, CostInPoint := req.CostInPoint,
               ValidFrom := req.ValidFrom, ValidTo := req.ValidTo, IsActive := true }] }) := by
  have hany : (s.vouchers.any fun r => r.ID == env.newUUID) = false := by
    rw [List.any_eq_false]
    intro r hr
    simpa using hfresh r hr
  have hcost' : ¬ req.CostInPoint ≤ 0 := by omega
  simp only [CreateVoucher, hb, hp, hf, hcost', hd, hc, beforeCreate, beq_self_eq_true, if_true,
    hany, if_false, Bool.or_self, Bool.false_eq_true]

theorem dateRangeRejected_iff (validFrom validTo : Time) :
    dateRangeRejected validFrom validTo = true ↔
      validFrom ≠ 0 ∧ validTo ≠ 0 ∧ validFrom > validTo := by
  simp [dateRangeRejected, Time.IsZero, Time.After, and_assoc]

/-- C16: every voucher `CreateVoucher` stores has a positive `CostInPoint` and, when both
bounds are set, `ValidFrom ≤ ValidTo`; a request with `CostInPoint ≤ 0`, or with both bounds
set and `ValidFrom` after `ValidTo`, is answered with a 400 error and the store is unchanged;
a request with an unset bound, or with equal bounds, passes the date check, and is stored
when the other checks pass and the storage layer accepts the insert. -/
theorem C16_stored_vouchers_well_formed (env : CreateEnv CreateVoucherRequest) (s : Store)
    (req : CreateVoucherRequest) :
    (∀ st msg s', CreateVoucher env s req = (.success st msg, s') →
      ∃ v : Voucher, s'.vouchers = s.vouchers ++ [v] ∧
        v.CostInPoint = req.CostInPoint ∧ v.ValidFrom = req.ValidFrom ∧ v.ValidTo = req.ValidTo ∧
        0 < v.CostInPoint ∧ (v.ValidFrom ≠ 0 → v.ValidTo ≠ 0 → v.ValidFrom ≤ v.ValidTo)) ∧
    (req.CostInPoint ≤ 0 ∨ (req.ValidFrom ≠ 0 ∧ req.ValidTo ≠ 0 ∧ req.ValidFrom > req.ValidTo) →
      ∃ msg, CreateVoucher env s req = (.error 400 msg, s)) ∧
    (req.ValidFrom = 0 ∨ req.ValidTo = 0 ∨ req.ValidFrom = req.ValidTo →
      dateRangeRejected req.ValidFrom req.ValidTo = false ∧
      ∀ brandID b, env.bindError req = none → env.parseUUID req.BrandID = some brandID →
        s.brands.find? (fun b => b.ID == brandID) = some b → 0 < req.CostInPoint →
        env.createFails = false → (∀ v ∈ s.vouchers, v.ID ≠ env.newUUID) →
        CreateVoucher env s req =
          (.success 201 "Voucher created successfully",
            { s with vouchers := s.vouchers ++
                [{ ID := env.newUUID, BrandID := brandID, Name := req.Name,
                   Description := req.Description, CostInPoint := req.CostInPoint,
                   ValidFrom := req.ValidFrom, ValidTo := req.ValidTo, IsActive := true }] })) := by
  refine ⟨?_, ?_, ?_⟩
  · intro st msg s' h
    obtain ⟨brandID, hcost, hd, hs⟩ := CreateVoucher_success h
    refine ⟨_, hs, rfl, rfl, rfl, ?_, ?_⟩
    · show 0 < req.CostInPoint
      omega
    · intro h1 h2
      show req.ValidFrom ≤ req.ValidTo
      by_contra hgt
      have : dateRangeRejected req.ValidFrom req.ValidTo = true :=
        (dateRangeRejected_iff _ _).mpr ⟨h1, h2, lt_of_not_le hgt⟩
      rw [hd] at this; cases this
  · intro h
    apply CreateVoucher_rejects
    rcases h with h | h
    · exact Or.inl h
    · exact Or.inr ((dateRangeRejected_iff _ _).mpr h)
  · intro h
    have hd : dateRangeRejected req.ValidFrom req.ValidTo = false := by
      cases hr : dateRangeRejected req.ValidFrom req.ValidTo with
      | false => rfl
      | true =>
        obtain ⟨h1, h2, h3⟩ := (dateRangeRejected_iff _ _).mp hr
        rcases h with h | h | h
        · exact absurd h h1
        · exact absurd h h2
        · rw [h] at h3; exact absurd h3 (lt_irrefl _)
    refine ⟨hd, ?_⟩
    intro brandID b hb hp hf hcost hc hfresh
    exact CreateVoucher_accepts hb hp hf hcost hd hc hfresh

/-- C16 witness: brand 9 exists; a request valid from 2000 to 1000 is rejected, and a
request whose two bounds are both 1000 is stored. -/
theorem C16_stored_vouchers_well_formed_witness :
    (∃ msg, CreateVoucher voucherEnv storeWithBrand (reqVoucherWindow 2000 1000) =
      (.error 400 msg, storeWithBrand)) ∧
    CreateVoucher voucherEnv storeWithBrand (reqVoucherWindow 1000 1000) =
      (.success 201 "Voucher created successfully",
        { storeWithBrand with vouchers := storeWithBrand.vouchers ++
            [{ ID := 2, BrandID := 9, Name := "coffee", Description := "", CostInPoint := 300,
               ValidFrom := 1000, ValidTo := 1000, IsActive := true }] }) :=
  ⟨(C16_stored_vouchers_well_formed voucherEnv storeWithBrand (reqVoucherWindow 2000 1000)).2.1
      (Or.inr (by decide)),
    ((C16_stored_vouchers_well_formed voucherEnv storeWithBrand (reqVoucherWindow 1000 1000)).2.2
      (Or.inr (Or.inr rfl))).2 9 brandAcme rfl rfl rfl (by decide) rfl (by decide)⟩

set_option maxRecDepth 10000 in
/-- C17 (the code at the failing inputs): a brand name of one character, U+00E9, which is
two bytes long, passes the name check and the brand is stored; a brand name of 64
characters U+1F600, which is 256 bytes long, is rejected by the name check. -/
theorem C17_name_length_counts_bytes :
    reqBrandOneChar.Name.length = 1 ∧ goLen reqBrandOneChar.Name = 2 ∧
      brandNameRejected reqBrandOneChar.Name = false ∧
      CreateBrand brandEnv emptyStore reqBrandOneChar =
        (.success 201 "Brand created successfully",
          { emptyStore with brands :=
              [{ ID := 9, Name := "é", Description := "", LogoURL := "", IsActive := true }] }) ∧
      reqBrandLongName.Name.length = 64 ∧ goLen reqBrandLongName.Name = 256 ∧
      CreateBrand brandEnv emptyStore reqBrandLongName =
        (.error 400 "Brand name must be between 2 and 255 characters", emptyStore) := by
  decide

/-! ## Shape of the rows of a redemption -/

/-- C18: for every successful redemption of a request with n ≥ 1 items, exactly one
transaction row is appended, with status "completed" and the requesting customer's id,
together with exactly n item rows carrying its id; the row at position k references the
voucher id of the k-th request item with the k-th requested quantity (repeated voucher ids
give separate rows), so the new transaction has at least one item. -/
theorem C18_transaction_shape (env : Env) (s s' : Store) (req : RedemptionRequest)
    (st : Nat) (msg : String) (hn : 1 ≤ req.Items.length)
    (h : CreateRedemption env s req = (.success st msg, s')) :
    ∃ (t : Transaction) (its : List TransactionItem),
      s'.transactions = s.transactions ++ [t] ∧ t.Status = "completed" ∧
      env.parseUUID req.CustomerID = some t.CustomerID ∧
      s'.items = s.items ++ its ∧ its.length = req.Items.length ∧ its ≠ [] ∧
      (∀ it ∈ its, it.TransactionID = t.ID) ∧
      ∀ (k : Nat) (item : RedemptionItem), req.Items[k]? = some item →
        ∃ it : TransactionItem, its[k]? = some it ∧
          env.parseUUID item.VoucherID = some it.VoucherID ∧ it.Quantity = item.Quantity := by
  obtain ⟨p, hp, hs, _⟩ := CreateRedemption_success h
  obtain ⟨_, hparse, _, hl, _⟩ := prepare_ok hp
  obtain ⟨news, hacc, hlen, _, _, hrows⟩ := processItems_ok env s _ _ _ _ _ _ hl
  have hnews : p.transactionItems = news := by simpa using hacc
  have hlen' : (stampItems env (transactionRow env p).ID 0 p.transactionItems).length =
      req.Items.length := by rw [stampItems_length, hnews, hlen]
  refine ⟨transactionRow env p, stampItems env (transactionRow env p).ID 0 p.transactionItems,
    ?_, rfl, hparse, ?_, hlen', ?_, stampItems_transactionID env _ _ _, ?_⟩
  · rw [hs]; rfl
  · rw [hs]; rfl
  · intro hnil
    rw [hnil] at hlen'
    simp only [List.length_nil] at hlen'
    omega
  · intro k item hk
    obtain ⟨vid, v, hval, hrow⟩ := hrows k item hk
    obtain ⟨hpv, _, _⟩ := validateItem_ok (by simpa using hval)
    refine ⟨{ itemRow vid v item with
        TransactionID := (transactionRow env p).ID,
        ID := beforeCreate (itemRow vid v item).ID (env.newUUID (0 + k + 1)) }, ?_, hpv, rfl⟩
    rw [stampItems_getElem?, hnews, hrow]; rfl

/-- C18 witness: the same voucher requested twice gives two item rows. -/
theorem C18_transaction_shape_witness :
    (1 ≤ reqTwice.Items.length ∧
      CreateRedemption envA (storeWith 1000 [voucher300]) reqTwice =
        (.success 201 "Redemption successful",
          { brands := [], vouchers := [voucher300], customers := [customerWith 400],
            transactions := [{ ID := 100, CustomerID := 1, TotalPoints := 600, Status := "completed" }],
            items := [{ ID := 101, TransactionID := 100, VoucherID := 2, Quantity := 1,
                        PointsPerUnit := 300, TotalPoints := 300 },
                      { ID := 102, TransactionID := 100, VoucherID := 2, Quantity := 1,
                        PointsPerUnit := 300, TotalPoints := 300 }] })) ∧
    ∃ (t : Transaction) (its : List TransactionItem),
      (CreateRedemption envA (storeWith 1000 [voucher300]) reqTwice).2.transactions =
        (storeWith 1000 [voucher300]).transactions ++ [t] ∧ t.Status = "completed" ∧
      envA.parseUUID reqTwice.CustomerID = some t.CustomerID ∧
      (CreateRedemption envA (storeWith 1000 [voucher300]) reqTwice).2.items =
        (storeWith 1000 [voucher300]).items ++ its ∧
      its.length = reqTwice.Items.length ∧ its ≠ [] ∧
      (∀ it ∈ its, it.TransactionID = t.ID) ∧
      ∀ (k : Nat) (item : RedemptionItem), reqTwice.Items[k]? = some item →
        ∃ it : TransactionItem, its[k]? = some it ∧
          envA.parseUUID item.VoucherID = some it.VoucherID ∧ it.Quantity = item.Quantity :=
  ⟨⟨by decide, by decide⟩,
    C18_transaction_shape envA (storeWith 1000 [voucher300])
      (CreateRedemption envA (storeWith 1000 [voucher300]) reqTwice).2 reqTwice 201
      "Redemption successful" (by decide) (by decide)⟩

end Loyalty
